import Mathlib

/-!
Verification of the FIA/GLWB monthly liability projection engine.

This file is a shallow embedding, in Lean 4, of the Rust sources of the
projection system (policy data model, assumption tables, lapse/PWD models,
the monthly projection kernel, the CARVM reserve calculator and the IRR
solver), together with theorems checking the natural-language specification
against that embedding.  Floating point numbers of the source are modelled
as real numbers (exact arithmetic); machine integers as naturals with the
saturating/wrapping behaviour of the source made explicit.
-/

namespace ActSys

noncomputable section

/-! ## Policy data model (src/policy/data.rs) -/

/-- Qualified status of the policy. -/
inductive QualStatus | Q | N
deriving DecidableEq

/-- Gender of the policyholder. -/
inductive Gender | male | female
deriving DecidableEq

/-- Crediting strategy for the annuity. -/
inductive CreditingStrategy | indexed | fixed
deriving DecidableEq

/-- Rollup type for the benefit base. -/
inductive RollupType | simple | compound
deriving DecidableEq

/-- Benefit base bucket for lapse model segmentation. -/
inductive BenefitBaseBucket
| under50k | from50kTo100k | from100kTo200k | from200kTo500k | over500k
deriving DecidableEq

/-- `BenefitBaseBucket::from_amount`. -/
def BenefitBaseBucket.fromAmount (amount : ℝ) : BenefitBaseBucket :=
  if amount < 50000 then .under50k
  else if amount < 100000 then .from50kTo100k
  else if amount < 200000 then .from100kTo200k
  else if amount < 500000 then .from200kTo500k
  else .over500k

/-- A single policy record from the pricing inforce (struct `Policy`). -/
structure Policy where
  policyId : ℕ
  qualStatus : QualStatus
  issueAge : ℕ
  gender : Gender
  initialBenefitBase : ℝ
  initialPols : ℝ
  initialPremium : ℝ
  benefitBaseBucket : BenefitBaseBucket
  percentage : ℝ
  creditingStrategy : CreditingStrategy
  scPeriod : ℕ
  valRate : ℝ
  mgir : ℝ
  bonus : ℝ
  rollupType : RollupType
  durationMonths : ℕ
  incomeActivated : Bool
  glwbStartYear : ℕ
  currentAv : Option ℝ
  currentBenefitBase : Option ℝ

/-- `Policy::starting_av`. -/
def Policy.startingAv (p : Policy) : ℝ := p.currentAv.getD p.initialPremium

/-- `Policy::starting_benefit_base`. -/
def Policy.startingBenefitBase (p : Policy) : ℝ :=
  p.currentBenefitBase.getD p.initialBenefitBase

/-- `Policy::policy_year`: `(duration_months + m).saturating_sub(1) / 12 + 1`
(natural subtraction is saturating). -/
def Policy.policyYear (p : Policy) (projectionMonth : ℕ) : ℕ :=
  (p.durationMonths + projectionMonth - 1) / 12 + 1

/-- `Policy::month_in_policy_year`. -/
def Policy.monthInPolicyYear (p : Policy) (projectionMonth : ℕ) : ℕ :=
  (p.durationMonths + projectionMonth - 1) % 12 + 1

/-- `Policy::attained_age`: `issue_age.saturating_add((policy_year - 1) as u8)`;
the `as u8` cast wraps mod 256 and the saturating add caps at 255. -/
def Policy.attainedAge (p : Policy) (projectionMonth : ℕ) : ℕ :=
  min (p.issueAge + (p.policyYear projectionMonth - 1) % 256) 255

/-- `Policy::should_activate_income`. -/
def Policy.shouldActivateIncome (p : Policy) (projectionMonth : ℕ) : Bool :=
  p.incomeActivated || decide (p.glwbStartYear ≤ p.policyYear projectionMonth)

/-! ## Mortality model (src/assumptions/mortality.rs) -/

/-- Method for converting annual mortality rates to monthly. -/
inductive MonthlyConversion | standard | simpleDivision | excelMethod
deriving DecidableEq

/-- Mortality table with separate base rates and adjustment factors.
Rates are stored as (female, male) pairs indexed by age, as in the source. -/
structure MortalityTable where
  baseRates : List (ℝ × ℝ)
  ageFactors : List ℝ
  improvementRates : List (ℝ × ℝ)
  conversionMethod : MonthlyConversion
  tableBaseYear : ℕ
  projectionYear : ℕ

/-- Select the component of a (female, male) pair for a gender. -/
def Gender.pick (g : Gender) (pair : ℝ × ℝ) : ℝ :=
  match g with
  | .female => pair.1
  | .male => pair.2

/-- `MortalityTable::improvement_rate`: 0 past the table, else lookup. -/
def MortalityTable.improvementRate (t : MortalityTable) (age : ℕ) (g : Gender) : ℝ :=
  if t.improvementRates.length ≤ age then 0
  else g.pick (t.improvementRates.getD age (0, 0))

/-- `MortalityTable::monthly_rate`.  Ages past the table end return 1/12;
otherwise the base rate is scaled by the age factor, improved by
`(1-imp)^years` with `years = (projection_year - table_base_year - 1)
+ projection_month/12`, and converted to monthly. -/
def MortalityTable.monthlyRate (t : MortalityTable) (attainedAge : ℕ) (g : Gender)
    (projectionMonth : ℕ) : ℝ :=
  if t.baseRates.length ≤ attainedAge then 1 / 12
  else
    let baseAnnual := g.pick (t.baseRates.getD attainedAge (0, 0))
    let ageFactor := t.ageFactors.getD attainedAge 1
    let bestEstimateAnnual := baseAnnual * ageFactor
    let yearsImprovement : ℝ :=
      ((t.projectionYear - t.tableBaseYear - 1 : ℕ) : ℝ) + (projectionMonth : ℝ) / 12
    let improvementRate := t.improvementRate attainedAge g
    let improvementFactor := (1 - improvementRate) ^ yearsImprovement
    let improvedAnnual := bestEstimateAnnual * improvementFactor
    match t.conversionMethod with
    | .standard => 1 - (1 - improvedAnnual) ^ ((1 : ℝ) / 12)
    | .simpleDivision => improvedAnnual / 12
    | .excelMethod => bestEstimateAnnual * ageFactor / 12 * improvementFactor

/-- `MortalityTable::baseline_annual_rate`. -/
def MortalityTable.baselineAnnualRate (t : MortalityTable) (attainedAge : ℕ)
    (g : Gender) : ℝ :=
  if t.baseRates.length ≤ attainedAge then 1
  else g.pick (t.baseRates.getD attainedAge (0, 0)) * t.ageFactors.getD attainedAge 1

/-- IAM 2012 Basic mortality table (female, male) from the source. -/
def iam2012BaseRates : List (ℝ × ℝ) :=
  [(0.001801, 0.001783), (0.00045, 0.000446), (0.000287, 0.000306),
   (0.000199, 0.000254), (0.000152, 0.000193), (0.000139, 0.000186),
   (0.00013, 0.000184), (0.000122, 0.000177), (0.000105, 0.000159),
   (0.000098, 0.000143),
   (0.000094, 0.000126), (0.000096, 0.000123), (0.000105, 0.000147),
   (0.00012, 0.000188), (0.000146, 0.000236), (0.000174, 0.000282),
   (0.000199, 0.000325), (0.00022, 0.000364), (0.000234, 0.000399),
   (0.000245, 0.00043),
   (0.000253, 0.000459), (0.00026, 0.000492), (0.000266, 0.000526),
   (0.000272, 0.000569), (0.000275, 0.000616), (0.000277, 0.000669),
   (0.000284, 0.000728), (0.00029, 0.000764), (0.0003, 0.000789),
   (0.000313, 0.000808),
   (0.000333, 0.000824), (0.000357, 0.000834), (0.000375, 0.000838),
   (0.00039, 0.000828), (0.000405, 0.000808), (0.000424, 0.000789),
   (0.000447, 0.000783), (0.000476, 0.0008), (0.000514, 0.000837),
   (0.00056, 0.000889),
   (0.000613, 0.000955), (0.000667, 0.001029), (0.000723, 0.00111),
   (0.000774, 0.001188), (0.000823, 0.001268), (0.000866, 0.001355),
   (0.000917, 0.001464), (0.000983, 0.001615), (0.001072, 0.001808),
   (0.001168, 0.002032),
   (0.00129, 0.002285), (0.001453, 0.002557), (0.001622, 0.002828),
   (0.001792, 0.003088), (0.001972, 0.003345), (0.002166, 0.003616),
   (0.002393, 0.003922), (0.002666, 0.004272), (0.003, 0.004681),
   (0.003393, 0.005146),
   (0.003844, 0.005662), (0.004352, 0.006237), (0.004899, 0.006854),
   (0.005482, 0.00751), (0.006118, 0.00822), (0.006829, 0.009007),
   (0.007279, 0.009497), (0.007821, 0.010085), (0.008475, 0.010787),
   (0.009234, 0.011625),
   (0.010083, 0.012619), (0.011011, 0.013798), (0.01203, 0.015195),
   (0.013154, 0.016834), (0.014415, 0.018733), (0.015869, 0.020905),
   (0.017555, 0.023367), (0.0195, 0.026155), (0.021758, 0.029306),
   (0.024412, 0.032858),
   (0.027579, 0.036927), (0.031501, 0.041703), (0.036122, 0.046957),
   (0.041477, 0.052713), (0.047589, 0.059148), (0.054441, 0.066505),
   (0.061972, 0.075015), (0.070155, 0.084823), (0.078963, 0.095987),
   (0.088336, 0.108482),
   (0.098197, 0.122214), (0.108323, 0.136799), (0.119188, 0.152409),
   (0.131334, 0.169078), (0.145521, 0.186882), (0.162722, 0.205844),
   (0.18212, 0.219247), (0.199661, 0.238612), (0.217946, 0.258341),
   (0.236834, 0.278219),
   (0.256357, 0.298452), (0.283802, 0.32361), (0.304716, 0.344191),
   (0.325819, 0.364633), (0.346936, 0.384783), (0.367898, 0.4),
   (0.387607, 0.4), (0.4, 0.4), (0.4, 0.4), (0.4, 0.4),
   (0.4, 0.4), (0.4, 0.4), (0.4, 0.4), (0.4, 0.4), (0.4, 0.4),
   (0.4, 0.4), (0.4, 0.4), (0.4, 0.4), (0.4, 0.4), (0.4, 0.4),
   (0.4, 0.4)]

/-- One entry of `MortalityTable::default_age_factors`: 0.6 for ages up to 60,
grading linearly to 1.0 at 90, 1.0 beyond. -/
def defaultAgeFactorEntry (age : ℕ) : ℝ :=
  if age ≤ 60 then 0.6
  else if age ≤ 89 then 0.6 + 0.4 * ((age - 60 : ℕ) : ℝ) / 30
  else 1

/-- `MortalityTable::default_age_factors` as a 121-element vector. -/
def defaultAgeFactors : List ℝ := (List.range 121).map defaultAgeFactorEntry

/-- One entry of `MortalityTable::default_improvement_rates`, replaying the
sequence of writes of the source (base 1%, overrides for ages 51-103,
zero from 104). -/
def defaultImprovementEntry (age : ℕ) : ℝ × ℝ :=
  if 51 ≤ age ∧ age ≤ 80 then
    ((if age ≤ 52 then 0.01 else if age ≤ 58 then 0.012 else 0.013),
     (if age ≤ 50 then 0.01 else if age ≤ 52 then 0.011 else if age ≤ 54 then 0.012
      else if age ≤ 56 then 0.013 else if age ≤ 58 then 0.014 else 0.015))
  else if age = 81 then (0.012, 0.014)
  else if age = 82 then (0.012, 0.013)
  else if age = 83 then (0.011, 0.013)
  else if age = 84 then (0.010, 0.012)
  else if age = 85 then (0.010, 0.011)
  else if age = 86 then (0.009, 0.010)
  else if age = 87 then (0.008, 0.009)
  else if age = 88 then (0.007, 0.009)
  else if age = 89 then (0.007, 0.008)
  else if age = 90 then (0.006, 0.007)
  else if age = 91 then (0.006, 0.007)
  else if age = 92 then (0.005, 0.006)
  else if age = 93 then (0.005, 0.005)
  else if age = 94 then (0.004, 0.005)
  else if age = 95 then (0.004, 0.004)
  else if age = 96 then (0.004, 0.004)
  else if age = 97 then (0.003, 0.003)
  else if age = 98 then (0.003, 0.003)
  else if age = 99 then (0.002, 0.002)
  else if age = 100 then (0.002, 0.002)
  else if age = 101 then (0.002, 0.002)
  else if age = 102 then (0.001, 0.001)
  else if age = 103 then (0.001, 0.001)
  else if 104 ≤ age then (0, 0)
  else (0.01, 0.01)

/-- `MortalityTable::default_improvement_rates` as a 121-element vector. -/
def defaultImprovementRates : List (ℝ × ℝ) :=
  (List.range 121).map defaultImprovementEntry

/-- `MortalityTable::iam_2012_with_improvement`. -/
def iamTable : MortalityTable where
  baseRates := iam2012BaseRates
  ageFactors := defaultAgeFactors
  improvementRates := defaultImprovementRates
  conversionMethod := .standard
  tableBaseYear := 2012
  projectionYear := 2026

/-! ## Lapse model (src/assumptions/lapse.rs) -/

/-- Coefficients for the predictive lapse model. -/
structure LapseCoefficients where
  itmLow : ℝ
  itmHigh : ℝ
  incomeMain : ℝ
  incomeItmLow : ℝ

/-- `LapseCoefficients::default`. -/
def defaultLapseCoefficients : LapseCoefficients where
  itmLow := -3.16184447006944
  itmHigh := -1.15717209704794
  incomeMain := -2.41891458766257
  incomeItmLow := 1.53610221716995

/-- Coefficients for bucket adjustments, four per effect
(buckets [0,50k), [50k,100k), [100k,200k), [200k,Inf)). -/
structure BucketCoefficients where
  main : Fin 4 → ℝ
  poly1 : Fin 4 → ℝ
  poly2 : Fin 4 → ℝ
  income : Fin 4 → ℝ
  shockYear : Fin 4 → ℝ
  postShockPoly1 : Fin 4 → ℝ
  postShockPoly2 : Fin 4 → ℝ

/-- Build a 4-vector from explicit entries. -/
def vec4 (a b c d : ℝ) : Fin 4 → ℝ := fun i => [a, b, c, d].getD i 0

/-- `BucketCoefficients::default` (from surrender_predictive_model.csv). -/
def defaultBucketCoefficients : BucketCoefficients where
  main := vec4 0 (-0.157400822647813) (-0.249985676390188) (-0.338729473320792)
  poly1 := vec4 0 0.0682532283448409 0.0763149050501966 0.0577584207560845
  poly2 := vec4 0 0.00291547472994642 0.00234424354188925 0.00156198120112268
  income := vec4 0 (-0.0925723455729023) (-0.134728779396966) (-0.0656576115761846)
  shockYear := vec4 0 0.577678462673537 0.469928825868869 0.472851885434387
  postShockPoly1 := vec4 0 0.544650716473373 0.705070763116629 0.75719904977134
  postShockPoly2 := vec4 0 (-0.908776562309262) (-0.826641853779992) (-0.839435686720885)

/-- `BucketCoefficients::bucket_index`. -/
def bucketIndex (bucket : BenefitBaseBucket) : Fin 4 :=
  match bucket with
  | .under50k => 0
  | .from50kTo100k => 1
  | .from100kTo200k => 2
  | .from200kTo500k => 3
  | .over500k => 3

/-- `BucketCoefficients::raw_bucket_terms`. -/
def BucketCoefficients.rawBucketTerms (c : BucketCoefficients) (idx : Fin 4)
    (poly1 poly2 shockInd postShockPoly1 postShockPoly2 incomeInd : ℝ) : ℝ :=
  c.main idx + c.poly1 idx * poly1 + c.poly2 idx * poly2 + c.income idx * incomeInd
    + c.shockYear idx * shockInd + c.postShockPoly1 idx * postShockPoly1
    + c.postShockPoly2 idx * postShockPoly2

/-- `BucketCoefficients::adjustment`: shift of the linear predictor from the
[200k,Inf) reference bucket (whose effects are folded into the precalc) to
the target bucket, with the income-on branch removing the reference
polynomial terms. -/
def BucketCoefficients.adjustment (c : BucketCoefficients) (bucket : BenefitBaseBucket)
    (policyYear scPeriod : ℕ) (incomeActivated : Bool) : ℝ :=
  let targetIdx := bucketIndex bucket
  let durationMinusScp : ℝ := min ((policyYear : ℤ) - (scPeriod : ℤ) : ℤ) 0
  let poly1 := durationMinusScp
  let poly2 := durationMinusScp * durationMinusScp
  let shockInd : ℝ := if policyYear = scPeriod + 1 then 1 else 0
  let postShockTerm : ℝ :=
    if scPeriod < policyYear then
      1 / (max (min ((policyYear - scPeriod : ℕ) : ℝ) 3) 1)
    else 0
  let postShockPoly1 := postShockTerm
  let postShockPoly2 := postShockTerm * postShockTerm
  if incomeActivated then
    let basePolyTerms := c.poly1 3 * poly1 + c.poly2 3 * poly2
      + c.shockYear 3 * shockInd + c.postShockPoly1 3 * postShockPoly1
      + c.postShockPoly2 3 * postShockPoly2
    let targetTerms := c.main targetIdx + c.income targetIdx
    let baseMain := c.main 3
    (targetTerms - baseMain) - basePolyTerms
  else
    c.rawBucketTerms targetIdx poly1 poly2 shockInd postShockPoly1 postShockPoly2 0
      - c.rawBucketTerms 3 poly1 poly2 shockInd postShockPoly1 postShockPoly2 0

/-- Lapse model with predictive factors. -/
structure LapseModel where
  coefficients : LapseCoefficients
  bucketCoefficients : BucketCoefficients
  precalcByYear : List ℝ

/-- `LapseModel::default_predictive_model`. -/
def defaultPredictiveModel : LapseModel where
  coefficients := defaultLapseCoefficients
  bucketCoefficients := defaultBucketCoefficients
  precalcByYear :=
    [-1.4257937264401424, -0.9061294780969887, -0.3805864186366955,
     0.15083545194073789, 0.329461260874028, 0.513965880924458,
     0.704349312092028, 0.9006115543767378, 1.1027526077785876,
     1.310772472297577, 2.9366733874333395, 2.083416198115829,
     2.1066423172719184]

/-- `LapseModel::precalc_for_year`: entry `policy_year - 1`, last entry past
the table (0 for an empty table). -/
def LapseModel.precalcForYear (m : LapseModel) (policyYear : ℕ) : ℝ :=
  match m.precalcByYear.get? (policyYear - 1) with
  | some v => v
  | none => m.precalcByYear.getLastD 0

/-- `LapseModel::base_component_with_bucket`. -/
def LapseModel.baseComponentWithBucket (m : LapseModel) (policyYear : ℕ)
    (incomeActivated : Bool) (bucket : BenefitBaseBucket) (scPeriod : ℕ) : ℝ :=
  let c := m.coefficients
  let precalc := m.precalcForYear policyYear
  let incomeInd : ℝ := if incomeActivated then 1 else 0
  let bucketAdj := m.bucketCoefficients.adjustment bucket policyYear scPeriod incomeActivated
  precalc + c.itmLow + c.itmHigh + c.incomeMain * incomeInd
    + c.incomeItmLow * incomeInd + bucketAdj

/-- `LapseModel::dynamic_component`. -/
def LapseModel.dynamicComponent (m : LapseModel) (itmNess : ℝ)
    (incomeActivated : Bool) : ℝ :=
  let c := m.coefficients
  let itmLowClamped := min (max itmNess 0.5) 1
  let itmHighClamped := min (max itmNess 1) 2
  let incomeInd : ℝ := if incomeActivated then 1 else 0
  c.itmHigh * (itmHighClamped - 1) + c.itmLow * (itmLowClamped - 1)
    + c.incomeItmLow * incomeInd * (itmLowClamped - 1)

/-- `LapseModel::annual_lapse_prob_with_bucket`: log link
`p = exp(min(0, eta))`, capped at 1. -/
def LapseModel.annualLapseProbWithBucket (m : LapseModel) (policyYear : ℕ)
    (incomeActivated : Bool) (itmNess : ℝ) (bucket : BenefitBaseBucket)
    (scPeriod : ℕ) : ℝ :=
  let base := m.baseComponentWithBucket policyYear incomeActivated bucket scPeriod
  let dynamic := m.dynamicComponent itmNess incomeActivated
  min (Real.exp (min (base + dynamic) 0)) 1

/-- `LapseModel::get_skew`: 1/12 except in the shock year, where months 1-3
carry 40%/30%/20% and months 4-12 carry 0.1/9 each. -/
def LapseModel.getSkew (_ : LapseModel) (policyYear monthInPolicyYear scPeriod : ℕ) : ℝ :=
  if policyYear = scPeriod + 1 then
    if monthInPolicyYear = 1 then 0.4
    else if monthInPolicyYear = 2 then 0.3
    else if monthInPolicyYear = 3 then 0.2
    else 0.1 / 9
  else 1 / 12

/-- `LapseModel::monthly_lapse_rate_with_skew`: 0 in projection month 1 and
for non-positive ITM, otherwise `1 - (1 - annual)^skew`. -/
def LapseModel.monthlyLapseRateWithSkew (m : LapseModel) (projectionMonth policyYear
    monthInPolicyYear : ℕ) (incomeActivated : Bool) (itmNess : ℝ)
    (scPeriod : ℕ) (bucket : BenefitBaseBucket) : ℝ :=
  if projectionMonth = 1 then 0
  else if itmNess ≤ 0 then 0
  else
    let annualProb := m.annualLapseProbWithBucket policyYear incomeActivated itmNess bucket scPeriod
    let skew := m.getSkew policyYear monthInPolicyYear scPeriod
    1 - (1 - annualProb) ^ (skew : ℝ)

/-- `calculate_itm_ness`: BB/AV with the convention 1.0 at AV ≤ 0. -/
def calculateItmNess (benefitBase accountValue : ℝ) : ℝ :=
  if accountValue ≤ 0 then 1 else benefitBase / accountValue

/-! ## PWD model (src/assumptions/pwd.rs) -/

/-- RMD table by attained age. -/
structure RmdTable where
  rates : List (ℕ × ℝ)

/-- `RmdTable::default` (distribution rates from age 73). -/
def defaultRmdTable : RmdTable where
  rates :=
    [(73, 0.0377358490566038), (74, 0.0392156862745098), (75, 0.0406504065040650),
     (76, 0.0421940928270042), (77, 0.0436681222707424), (78, 0.0454545454545455),
     (79, 0.0473933649289099), (80, 0.0495049504950495), (81, 0.0515463917525773),
     (82, 0.0540540540540541), (83, 0.0564971751412429), (84, 0.0595238095238095),
     (85, 0.0625), (86, 0.0657894736842105), (87, 0.0694444444444444),
     (88, 0.0729927007299270), (89, 0.0775193798449612), (90, 0.0819672131147541),
     (91, 0.0869565217391304), (92, 0.0925925925925926), (93, 0.0990099009900990),
     (94, 0.1052631578947368), (95, 0.1123595505617978), (96, 0.1190476190476190),
     (97, 0.1265822784810127), (98, 0.1351351351351351), (99, 0.1449275362318841),
     (100, 0.1562500000000000)]

/-- `RmdTable::get_rate`: 0 below 73, exact match in the table, last rate
(default 0.2 for an empty table) past the end. -/
def RmdTable.getRate (t : RmdTable) (attainedAge : ℕ) : ℝ :=
  if attainedAge < 73 then 0
  else
    match t.rates.find? (fun p => p.1 = attainedAge) with
    | some p => p.2
    | none => (t.rates.getLast?.map Prod.snd).getD 0.2

/-- Free withdrawal utilization by policy year. -/
structure FreeWithdrawalUtilization where
  rates : List ℝ

/-- `FreeWithdrawalUtilization::default`: 10/20/30/40%. -/
def defaultFreeUtil : FreeWithdrawalUtilization where
  rates := [0.1, 0.2, 0.3, 0.4]

/-- `FreeWithdrawalUtilization::get_rate`: last value (default 0.4) holds
beyond the table. -/
def FreeWithdrawalUtilization.getRate (u : FreeWithdrawalUtilization)
    (policyYear : ℕ) : ℝ :=
  match u.rates.get? (policyYear - 1) with
  | some v => v
  | none => u.rates.getLastD 0.4

/-- Combined PWD assumptions. -/
structure PwdAssumptions where
  rmd : RmdTable
  freeUtilization : FreeWithdrawalUtilization
  freePct : ℝ

/-- `PwdAssumptions::default`. -/
def defaultPwd : PwdAssumptions where
  rmd := defaultRmdTable
  freeUtilization := defaultFreeUtil
  freePct := 0.05

/-- `PwdAssumptions::get_fpw_pct`: 0 in policy year 1; `max(free%, RMD)` for
qualified contracts, `free%` for non-qualified. -/
def PwdAssumptions.getFpwPct (pwd : PwdAssumptions) (policyYear attainedAge : ℕ)
    (qualStatus : QualStatus) : ℝ :=
  if policyYear = 1 then 0
  else
    match qualStatus with
    | .Q => max pwd.freePct (pwd.rmd.getRate attainedAge)
    | .N => pwd.freePct

/-- `PwdAssumptions::annual_pwd_rate`: 0 when income is activated, else
FPW% times the utilization for the policy year. -/
def PwdAssumptions.annualPwdRate (pwd : PwdAssumptions) (policyYear attainedAge : ℕ)
    (qualStatus : QualStatus) (incomeActivated : Bool) : ℝ :=
  if incomeActivated then 0
  else pwd.getFpwPct policyYear attainedAge qualStatus
    * pwd.freeUtilization.getRate policyYear

/-- `PwdAssumptions::monthly_pwd_rate_adjusted`: 0 for policy year 1,
otherwise `1 - (1 - annual)^(1/12)`. -/
def PwdAssumptions.monthlyPwdRateAdjusted (pwd : PwdAssumptions)
    (policyYear _monthInPolicyYear attainedAge : ℕ) (qualStatus : QualStatus)
    (incomeActivated : Bool) : ℝ :=
  if policyYear = 1 then 0
  else
    let annual := pwd.annualPwdRate policyYear attainedAge qualStatus incomeActivated
    1 - (1 - annual) ^ ((1 : ℝ) / 12)

/-! ## Product features (src/assumptions/product.rs) -/

/-- Surrender charge schedule by policy year. -/
structure SurrenderChargeSchedule where
  charges : List ℝ

/-- `SurrenderChargeSchedule::default_10_year`. -/
def default10Year : SurrenderChargeSchedule where
  charges := [0.09, 0.09, 0.08, 0.07, 0.06, 0.05, 0.04, 0.03, 0.02, 0.01]

/-- `SurrenderChargeSchedule::get_rate`: policy year 0 reads the first
charge; 1-indexed otherwise with 0 past the schedule. -/
def SurrenderChargeSchedule.getRate (s : SurrenderChargeSchedule)
    (policyYear : ℕ) : ℝ :=
  if policyYear = 0 then s.charges.headD 0
  else s.charges.getD (policyYear - 1) 0

/-- GLWB payout factors stored as age bands (min, max) with a rate each,
the order of the band list standing in for the iteration order of the
source's hash map (the bands never overlap in either construction path). -/
structure PayoutFactors where
  singleLife : List ((ℕ × ℕ) × ℝ)

/-- `PayoutFactors::default` age bands. -/
def defaultPayoutFactors : PayoutFactors where
  singleLife :=
    [((50, 55), 0.046), ((56, 60), 0.050), ((61, 65), 0.055), ((66, 70), 0.060),
     ((71, 75), 0.065), ((76, 80), 0.070), ((81, 85), 0.080), ((86, 120), 0.090)]

/-- `PayoutFactors::get_single_life`: first band containing the age, with
the hard-coded 0.090 maximum-band default when no band matches. -/
def PayoutFactors.getSingleLife (pf : PayoutFactors) (attainedAge : ℕ) : ℝ :=
  match pf.singleLife.find? (fun b => b.1.1 ≤ attainedAge ∧ attainedAge ≤ b.1.2) with
  | some b => b.2
  | none => 0.090

/-- GLWB rider features. -/
structure GlwbFeatures where
  minActivationAge : ℕ
  bonusRate : ℝ
  rollupRate : ℝ
  rollupYears : ℕ
  simpleRollup : Bool
  preActivationCharge : ℝ
  postActivationCharge : ℝ
  payoutFactors : PayoutFactors

/-- `GlwbFeatures::default`. -/
def defaultGlwb : GlwbFeatures where
  minActivationAge := 50
  bonusRate := 0.30
  rollupRate := 0.10
  rollupYears := 10
  simpleRollup := true
  preActivationCharge := 0.005
  postActivationCharge := 0.015
  payoutFactors := defaultPayoutFactors

/-- Base (non-rider) product features.  The `expenseRateOfAv` field is
modelled from the spec (default 0.25% of EOP AV per annum): the engine
reads `product.base.expense_rate_of_av`, whose declaration is not in the
src/ snapshot of product.rs. -/
structure BaseProductFeatures where
  surrenderCharges : SurrenderChargeSchedule
  freeWithdrawalPct : ℝ
  expenseRateOfAv : ℝ
  minPremium : ℝ
  maxPremium : ℝ
  minIssueAge : ℕ
  maxIssueAge : ℕ

/-- `BaseProductFeatures::default`. -/
def defaultBaseProduct : BaseProductFeatures where
  surrenderCharges := default10Year
  freeWithdrawalPct := 0.05
  expenseRateOfAv := 0.0025
  minPremium := 25000
  maxPremium := 1000000
  minIssueAge := 40
  maxIssueAge := 80

/-- Modelled from the spec: the commission schedule (struct
`CommissionSchedule`, not present under src/; only its callers in
engine.rs are).  Per the spec, month-1 commissions (agent, IMO override,
IMO conversion owed, wholesaler override, wholesaler conversion owed)
come from a schedule keyed on (premium, issue age); the month-13 bonus
rate is keyed on issue age; the chargeback factor is 1 in policy year 1
months 1-6, 0.5 in months 7-12, 0 otherwise.  The keyed schedules are
modelled as data (arbitrary functions of the key); the chargeback factor
is the concrete function the spec gives. -/
structure CommissionSchedule where
  calcAgent : ℝ → ℕ → ℝ
  calcImoNet : ℝ → ℕ → ℝ
  calcImoConv : ℝ → ℕ → ℝ
  calcWsNet : ℝ → ℕ → ℝ
  calcWsConv : ℝ → ℕ → ℝ
  bonusRate : ℕ → ℝ

/-- Modelled from the spec: `CommissionSchedule::chargeback_factor`
(1 in policy year 1 months 1-6, 0.5 in months 7-12, 0 otherwise). -/
def chargebackFactor (projectionMonth policyYear : ℕ) : ℝ :=
  if 1 < policyYear then 0
  else if 6 < projectionMonth then 0.5
  else 1

/-- Combined product features. -/
structure ProductFeatures where
  base : BaseProductFeatures
  glwb : GlwbFeatures
  commissions : CommissionSchedule

/-- Container for all projection assumptions (`Assumptions`). -/
structure Assumptions where
  mortality : MortalityTable
  lapse : LapseModel
  product : ProductFeatures
  pwd : PwdAssumptions

/-- `Assumptions::default_pricing` (with a commission schedule left as a
parameter, since its table is not part of src/). -/
def defaultPricing (comm : CommissionSchedule) : Assumptions where
  mortality := iamTable
  lapse := defaultPredictiveModel
  product := { base := defaultBaseProduct, glwb := defaultGlwb, commissions := comm }
  pwd := defaultPwd

/-! ## Projection engine (src/projection/engine.rs, state.rs, cashflows.rs) -/

/-- Hedge/derivative parameters for indexed products. -/
structure HedgeParams where
  optionBudget : ℝ
  appreciationRate : ℝ
  financingFee : ℝ

/-- `HedgeParams::default`. -/
def defaultHedgeParams : HedgeParams where
  optionBudget := 0.0315
  appreciationRate := 0.20
  financingFee := 0.05

/-- Approach for crediting interest to account value. -/
inductive CreditingApproach
| optionBudget (budgetRate equityKicker : ℝ)
| scenarioBased (floorRate cap participation indexReturn : ℝ)
| fixed (rate : ℝ)
| indexedAnnual (annualRate : ℝ)
| policyBased (fixedAnnualRate indexedAnnualRate : ℝ)

/-- Configuration for a projection run. -/
structure ProjectionConfig where
  projectionMonths : ℕ
  crediting : CreditingApproach
  detailedOutput : Bool
  treasuryChange : ℝ
  fixedLapseRate : Option ℝ
  hedgeParams : Option HedgeParams

/-- State of a policy during projection (struct `ProjectionState`; the
`locked_payout_rate`, `initial_lives` and `first_month_total_commission`
fields read and written by engine.rs are included here). -/
structure ProjectionState where
  projectionMonth : ℕ
  policyYear : ℕ
  monthInPolicyYear : ℕ
  attainedAge : ℕ
  bopAv : ℝ
  bopBenefitBase : ℝ
  eopAv : ℝ
  lives : ℝ
  avPersistency : ℝ
  bbPersistency : ℝ
  livesPersistency : ℝ
  incomeActivated : Bool
  ytdSystematicWd : ℝ
  ytdNonSystematicWd : ℝ
  initialBenefitBase : ℝ
  priorBopAv : ℝ
  priorBopBb : ℝ
  lockedPayoutRate : Option ℝ
  initialLives : ℝ
  firstMonthTotalCommission : ℝ

/-- `ProjectionState::from_policy`. -/
def ProjectionState.fromPolicy (p : Policy) : ProjectionState where
  projectionMonth := 0
  policyYear := 1
  monthInPolicyYear := 0
  attainedAge := p.issueAge
  bopAv := p.startingAv
  bopBenefitBase := p.startingBenefitBase
  eopAv := p.startingAv
  lives := p.initialPols
  avPersistency := 1
  bbPersistency := 1
  livesPersistency := 1
  incomeActivated := p.incomeActivated
  ytdSystematicWd := 0
  ytdNonSystematicWd := 0
  initialBenefitBase := p.startingBenefitBase
  priorBopAv := p.startingAv
  priorBopBb := p.startingBenefitBase
  lockedPayoutRate := none
  initialLives := p.initialPols
  firstMonthTotalCommission := 0

/-- `ProjectionState::advance_month`. -/
def ProjectionState.advanceMonth (st : ProjectionState) (p : Policy) : ProjectionState :=
  let pm := st.projectionMonth + 1
  let mipy := p.monthInPolicyYear pm
  { st with
    projectionMonth := pm
    policyYear := p.policyYear pm
    monthInPolicyYear := mipy
    attainedAge := p.attainedAge pm
    incomeActivated := st.incomeActivated || (!st.incomeActivated && p.shouldActivateIncome pm)
    ytdSystematicWd := if mipy = 1 then 0 else st.ytdSystematicWd
    ytdNonSystematicWd := if mipy = 1 then 0 else st.ytdNonSystematicWd
    bopAv := st.eopAv }

/-- `ProjectionState::prior_itm`. -/
def ProjectionState.priorItm (st : ProjectionState) : ℝ :=
  if st.priorBopAv ≤ 0 then 1 else st.priorBopBb / st.priorBopAv

/-- A single row of projection output for one month (struct `CashflowRow`,
with the per-component commission fields engine.rs writes). -/
structure CashflowRow where
  projectionMonth : ℕ := 1
  policyYear : ℕ := 1
  monthInPolicyYear : ℕ := 1
  attainedAge : ℕ := 0
  baselineMortality : ℝ := 0
  mortalityImprovement : ℝ := 0
  finalMortality : ℝ := 0
  surrenderCharge : ℝ := 0
  fpwPct : ℝ := 0
  glwbActivated : Bool := false
  nonSystematicPwdRate : ℝ := 0
  lapseSkew : ℝ := 0
  baseLapseComponent : ℝ := 0
  dynamicLapseComponent : ℝ := 0
  finalLapseRate : ℝ := 0
  premium : ℝ := 0
  bopAv : ℝ := 0
  bopBenefitBase : ℝ := 0
  preDecrementAv : ℝ := 0
  riderChargeRate : ℝ := 0
  creditedRate : ℝ := 0
  systematicWithdrawal : ℝ := 0
  rollupRate : ℝ := 0
  avPersistency : ℝ := 1
  bbPersistency : ℝ := 1
  livesPersistency : ℝ := 1
  lives : ℝ := 0
  mortalityDec : ℝ := 0
  lapseDec : ℝ := 0
  pwdDec : ℝ := 0
  riderChargesDec : ℝ := 0
  surrenderChargesDec : ℝ := 0
  interestCreditsDec : ℝ := 0
  mortalityCf : ℝ := 0
  lapseCf : ℝ := 0
  pwdCf : ℝ := 0
  riderChargesCf : ℝ := 0
  surrenderChargesCf : ℝ := 0
  interestCreditsCf : ℝ := 0
  eopAv : ℝ := 0
  expenses : ℝ := 0
  agentCommission : ℝ := 0
  imoOverride : ℝ := 0
  imoConversionOwed : ℝ := 0
  wholesalerOverride : ℝ := 0
  wholesalerConversionOwed : ℝ := 0
  bonusComp : ℝ := 0
  chargebacks : ℝ := 0
  totalNetCashflow : ℝ := 0
  netIndexCreditReimbursement : ℝ := 0
  hedgeGains : ℝ := 0

/-- `ProjectionEngine::calculate_credited_rate`. -/
def calculateCreditedRate (cfg : ProjectionConfig) (p : Policy)
    (st : ProjectionState) : ℝ :=
  match cfg.crediting with
  | .optionBudget budgetRate equityKicker => (budgetRate + equityKicker) / 12
  | .scenarioBased floorRate cap participation indexReturn =>
      min (max (indexReturn * participation) floorRate) cap / 12
  | .fixed rate => rate / 12
  | .indexedAnnual annualRate =>
      if st.monthInPolicyYear = 1 ∧ 1 < st.policyYear then
        annualRate * (if st.policyYear - 1 ≤ 10 then 1 else 0.5)
      else 0
  | .policyBased fixedAnnualRate indexedAnnualRate =>
      let rateMultiplier : ℝ := if st.policyYear ≤ 10 then 1 else 0.5
      match p.creditingStrategy with
      | .fixed => (1 + fixedAnnualRate * rateMultiplier) ^ ((1 : ℝ) / 12) - 1
      | .indexed =>
          if st.monthInPolicyYear = 1 ∧ 1 < st.policyYear then
            indexedAnnualRate * (if st.policyYear - 1 ≤ 10 then 1 else 0.5)
          else 0

/-- `ProjectionEngine::calculate_decrements`: materialise all decrement
rates of the month into the row.  (The source passes the configured base
free-withdrawal percentage into the PWD lookups; the pwd.rs functions use
their own identical `free_pct` field, which is what this embedding reads.) -/
def calculateDecrements (A : Assumptions) (cfg : ProjectionConfig) (p : Policy)
    (st : ProjectionState) (row : CashflowRow) : CashflowRow :=
  let itm := st.priorItm
  let finalLapse : ℝ :=
    if st.bopAv ≤ 0 then 0
    else
      match cfg.fixedLapseRate with
      | some annualRate =>
          if st.projectionMonth = 1 then 0
          else 1 - (1 - annualRate) ^ ((1 : ℝ) / 12)
      | none =>
          A.lapse.monthlyLapseRateWithSkew st.projectionMonth st.policyYear
            st.monthInPolicyYear st.incomeActivated itm p.scPeriod p.benefitBaseBucket
  { row with
    baselineMortality := A.mortality.baselineAnnualRate st.attainedAge p.gender
    mortalityImprovement := A.mortality.improvementRate st.attainedAge p.gender
    finalMortality := A.mortality.monthlyRate st.attainedAge p.gender st.projectionMonth
    surrenderCharge := A.product.base.surrenderCharges.getRate st.policyYear
    fpwPct := A.pwd.getFpwPct st.policyYear st.attainedAge p.qualStatus
    glwbActivated := st.incomeActivated
    nonSystematicPwdRate := A.pwd.monthlyPwdRateAdjusted st.policyYear
      st.monthInPolicyYear st.attainedAge p.qualStatus st.incomeActivated
    lapseSkew := A.lapse.getSkew st.policyYear st.monthInPolicyYear p.scPeriod
    baseLapseComponent := A.lapse.baseComponentWithBucket st.policyYear
      st.incomeActivated p.benefitBaseBucket p.scPeriod
    dynamicLapseComponent := A.lapse.dynamicComponent itm st.incomeActivated
    finalLapseRate := finalLapse
    riderChargeRate :=
      if st.projectionMonth % 12 = 0 then
        if st.incomeActivated then A.product.glwb.postActivationCharge
        else A.product.glwb.preActivationCharge
      else 0
    creditedRate := calculateCreditedRate cfg p st
    systematicWithdrawal :=
      if st.incomeActivated then
        let payoutRate :=
          match st.lockedPayoutRate with
          | some r => r
          | none => A.product.glwb.payoutFactors.getSingleLife st.attainedAge
        st.bopBenefitBase * payoutRate / 12
      else 0
    rollupRate :=
      if st.policyYear ≤ p.scPeriod ∧ !st.incomeActivated then
        A.product.glwb.rollupRate / 12
      else 0 }

/-- `ProjectionEngine::apply_decrements`: monthly lives persistency
`(1 - mortality)(1 - lapse)` applied to the cumulative factors and lives. -/
def applyDecrements (st : ProjectionState) (row : CashflowRow) : CashflowRow :=
  let monthlyPersistency := (1 - row.finalMortality) * (1 - row.finalLapseRate)
  let livesPersistency := st.livesPersistency * monthlyPersistency
  { row with
    avPersistency := st.avPersistency * monthlyPersistency
    bbPersistency := st.bbPersistency * monthlyPersistency
    livesPersistency := livesPersistency
    lives := st.lives * livesPersistency / st.livesPersistency }

/-- `ProjectionEngine::calculate_hedge_gains`, returning the pair
(net index credit reimbursement, hedge gains) the source writes into the
row: zero for Fixed cells or when no hedge parameters are configured. -/
def calculateHedgeGains (cfg : ProjectionConfig) (p : Policy)
    (st : ProjectionState) (row : CashflowRow) : ℝ × ℝ :=
  if p.creditingStrategy = .fixed then (0, 0)
  else
    match cfg.hedgeParams with
    | none => (0, 0)
    | some params =>
        let netAppreciation := 1 + params.appreciationRate - params.financingFee
        let laggedPolicyYear :=
          if st.monthInPolicyYear = 1 ∧ 1 < st.policyYear then st.policyYear - 1
          else st.policyYear
        let laggedRateMult : ℝ := if laggedPolicyYear ≤ 10 then 1 else 0.5
        let optionCost := params.optionBudget * laggedRateMult * (1 + params.financingFee)
        let reimbursement := max (st.bopAv * (row.creditedRate - optionCost)) 0
        let riderRate :=
          if 0 < st.bopAv then row.riderChargeRate * st.bopBenefitBase / st.bopAv
          else 0
        let monthlyAvPersistency := (1 - row.finalMortality) * (1 - row.finalLapseRate)
          * (1 - row.nonSystematicPwdRate) * (1 - riderRate)
        let avLost := st.bopAv * (1 - monthlyAvPersistency)
        let laggedMonth : ℕ :=
          if st.projectionMonth = 1 then 1
          else if st.monthInPolicyYear = 1 then 12
          else st.monthInPolicyYear - 1
        (reimbursement,
         avLost * params.optionBudget * laggedRateMult
           * netAppreciation ^ ((laggedMonth : ℝ) / 12) + reimbursement)

/-- `ProjectionEngine::calculate_cashflows`: proportional allocation of the
decrement pool, EOP AV, expenses, commissions, chargebacks, hedge gains
and the total net cashflow. -/
def calculateCashflows (A : Assumptions) (cfg : ProjectionConfig) (p : Policy)
    (st : ProjectionState) (row : CashflowRow) : CashflowRow :=
  let bopAv := st.bopAv
  let lives := st.lives
  let systematicWd := row.systematicWithdrawal
  let preDecAv := max (bopAv - systematicWd) 0 * (1 + row.creditedRate)
  let riderRate :=
    if 0 < bopAv then row.riderChargeRate * st.bopBenefitBase / bopAv else 0
  let avPersistency := (1 - row.finalMortality) * (1 - row.finalLapseRate)
    * (1 - row.nonSystematicPwdRate) * (1 - riderRate)
  let decrementPool := preDecAv * (1 - avPersistency)
  let sumOfRates := row.finalMortality + row.finalLapseRate
    + row.nonSystematicPwdRate + riderRate
  let decs : ℝ × ℝ × ℝ × ℝ × ℝ :=
    if 0 < sumOfRates then
      let allocationBase := decrementPool / sumOfRates
      let mort := allocationBase * row.finalMortality
      let fpwPct := row.fpwPct
      let netOfScFactor := fpwPct + (1 - fpwPct) * (1 - row.surrenderCharge)
      let lapse := allocationBase * row.finalLapseRate * netOfScFactor
      let surrChg := allocationBase * row.finalLapseRate * (1 - fpwPct) * row.surrenderCharge
      let pwd := allocationBase * row.nonSystematicPwdRate + systematicWd
      let rider := allocationBase * riderRate
      (mort, lapse, pwd, rider, surrChg)
    else (0, 0, systematicWd, 0, 0)
  let mortDec := decs.1
  let lapseDec := decs.2.1
  let pwdDec := decs.2.2.1
  let riderDec := decs.2.2.2.1
  let surrChgDec := decs.2.2.2.2
  let interestCredits := preDecAv - max (bopAv - systematicWd) 0
  let eopAv := max (bopAv + interestCredits - (mortDec + lapseDec + pwdDec + riderDec + surrChgDec)) 0
  let comm := A.product.commissions
  let expenses := eopAv * A.product.base.expenseRateOfAv / 12
  let agentCommission :=
    if st.projectionMonth = 1 then comm.calcAgent p.initialPremium p.issueAge else row.agentCommission
  let imoOverride :=
    if st.projectionMonth = 1 then comm.calcImoNet p.initialPremium p.issueAge else row.imoOverride
  let imoConversionOwed :=
    if st.projectionMonth = 1 then comm.calcImoConv p.initialPremium p.issueAge else row.imoConversionOwed
  let wholesalerOverride :=
    if st.projectionMonth = 1 then comm.calcWsNet p.initialPremium p.issueAge else row.wholesalerOverride
  let wholesalerConversionOwed :=
    if st.projectionMonth = 1 then comm.calcWsConv p.initialPremium p.issueAge else row.wholesalerConversionOwed
  let bonusComp :=
    if st.projectionMonth = 13 then st.bopAv * comm.bonusRate p.issueAge else row.bonusComp
  let cbFactor := chargebackFactor st.projectionMonth st.policyYear
  let livesPersistencyThisMonth := row.livesPersistency / st.livesPersistency
  let chargebacks :=
    if 0 < cbFactor ∧ 0 < st.initialLives then
      let livesLostRate := 1 - livesPersistencyThisMonth
      let firstMonthCommission :=
        if st.projectionMonth = 1 then agentCommission + imoOverride + wholesalerOverride
        else st.firstMonthTotalCommission
      st.lives * livesLostRate / st.initialLives * firstMonthCommission * cbFactor
    else row.chargebacks
  let hg := calculateHedgeGains cfg p st row
  let totalCommission := agentCommission + imoOverride + wholesalerOverride + bonusComp
  { row with
    preDecrementAv := preDecAv
    mortalityDec := mortDec
    lapseDec := lapseDec
    pwdDec := pwdDec
    riderChargesDec := riderDec
    surrenderChargesDec := surrChgDec
    interestCreditsDec := interestCredits
    mortalityCf := mortDec * lives
    lapseCf := lapseDec * lives
    pwdCf := pwdDec * lives
    riderChargesCf := riderDec * lives
    surrenderChargesCf := surrChgDec * lives
    interestCreditsCf := interestCredits * lives
    eopAv := eopAv
    expenses := expenses
    agentCommission := agentCommission
    imoOverride := imoOverride
    imoConversionOwed := imoConversionOwed
    wholesalerOverride := wholesalerOverride
    wholesalerConversionOwed := wholesalerConversionOwed
    bonusComp := bonusComp
    chargebacks := chargebacks
    netIndexCreditReimbursement := hg.1
    hedgeGains := hg.2
    totalNetCashflow := row.premium - mortDec
      - lapseDec - pwdDec - expenses - totalCommission + chargebacks + hg.2 }

/-- `ProjectionEngine::update_benefit_base`: BB persists through
`(1-mort)(1-lapse)(1-pwd)` and rolls up at month 12 of policy years within
the SC period when income is not activated, using the GLWB bonus and
rollup rates (not the policy's premium bonus). -/
def updateBenefitBase (A : Assumptions) (p : Policy) (st : ProjectionState)
    (row : CashflowRow) : ProjectionState :=
  let monthlyBbPersistency := (1 - row.finalMortality) * (1 - row.finalLapseRate)
    * (1 - row.nonSystematicPwdRate)
  let bb := st.bopBenefitBase * monthlyBbPersistency
  let bb1 :=
    if st.incomeActivated then bb
    else if st.monthInPolicyYear = 12 ∧ st.policyYear ≤ p.scPeriod then
      let bbBonus := A.product.glwb.bonusRate
      let rollupRate := A.product.glwb.rollupRate
      let py : ℝ := min (st.policyYear : ℝ) 10
      let pyPrev : ℝ := min ((st.policyYear - 1 : ℕ) : ℝ) 10
      bb * ((1 + bbBonus + rollupRate * py) / (1 + bbBonus + rollupRate * pyPrev))
    else bb
  { st with bopBenefitBase := bb1 }

/-- `ProjectionEngine::calculate_month`: compute the row for the current
month and update the state for the next one, in the source's order (the
prior BOP values are saved before the benefit base is rolled up). -/
def calculateMonth (A : Assumptions) (cfg : ProjectionConfig) (p : Policy)
    (st : ProjectionState) : CashflowRow × ProjectionState :=
  let row : CashflowRow :=
    { projectionMonth := st.projectionMonth
      policyYear := st.policyYear
      monthInPolicyYear := st.monthInPolicyYear
      attainedAge := st.attainedAge
      bopAv := st.bopAv
      bopBenefitBase := st.bopBenefitBase
      preDecrementAv := st.bopAv
      lives := st.lives
      premium := if st.projectionMonth = 1 then p.initialPremium else 0 }
  let row := calculateDecrements A cfg p st row
  let row := applyDecrements st row
  let row := calculateCashflows A cfg p st row
  let st := { st with
    firstMonthTotalCommission :=
      if st.projectionMonth = 1 then
        row.agentCommission + row.imoOverride + row.wholesalerOverride
      else st.firstMonthTotalCommission
    ytdSystematicWd := st.ytdSystematicWd + row.systematicWithdrawal
    eopAv := row.eopAv
    avPersistency := row.avPersistency
    bbPersistency := row.bbPersistency
    livesPersistency := row.livesPersistency
    lives := row.lives
    priorBopAv := st.bopAv
    priorBopBb := st.bopBenefitBase }
  let st := updateBenefitBase A p st row
  (row, st)

/-- The payout-rate lock of `project_policy`: when income is activated and
no rate is locked yet, freeze the current-age payout factor. -/
def lockPayout (A : Assumptions) (st : ProjectionState) : ProjectionState :=
  { st with lockedPayoutRate :=
      if st.incomeActivated ∧ st.lockedPayoutRate = none then
        some (A.product.glwb.payoutFactors.getSingleLife st.attainedAge)
      else st.lockedPayoutRate }

/-- The body of `ProjectionEngine::project_policy`'s month loop: lock the
payout rate when income first activates, record the month's row, stop when
lives fall to 1e-10. -/
def projectLoop (A : Assumptions) (cfg : ProjectionConfig) (p : Policy) :
    ℕ → ProjectionState → List CashflowRow
  | 0, _ => []
  | n + 1, st =>
      let st := lockPayout A (st.advanceMonth p)
      let res := calculateMonth A cfg p st
      res.1 :: (if res.2.lives ≤ 1e-10 then [] else projectLoop A cfg p n res.2)

/-- `ProjectionEngine::project_policy`: the cashflow rows of a projection. -/
def projectPolicy (A : Assumptions) (cfg : ProjectionConfig) (p : Policy) :
    List CashflowRow :=
  projectLoop A cfg p cfg.projectionMonths (ProjectionState.fromPolicy p)

/-! ## Reserve calculation (src/reserves/*) -/

/-- Largest finite f64 value (`f64::MAX`), used as the ITM sentinel when
the account value is non-positive. -/
def f64MAX : ℝ := (2 ^ 53 - 1) * 2 ^ 971

/-- `u32::MAX`, the "never activate" sentinel. -/
def u32MAX : ℕ := 4294967295

/-- Discount curve for reserve calculations (src/reserves/discount.rs). -/
structure DiscountCurve where
  valuationRate : ℝ
  deathBenefitRate : Option ℝ
  spotRates : Option (List ℝ)

/-- `DiscountCurve::single_rate`. -/
def DiscountCurve.singleRate (annualRate : ℝ) : DiscountCurve where
  valuationRate := annualRate
  deathBenefitRate := none
  spotRates := none

/-- `DiscountCurve::elective_discount_factor`. -/
def DiscountCurve.electiveDiscountFactor (c : DiscountCurve) : ℝ :=
  1 / (1 + c.valuationRate / 12)

/-- `DiscountCurve::death_benefit_discount_factor`. -/
def DiscountCurve.deathBenefitDiscountFactor (c : DiscountCurve) : ℝ :=
  1 / (1 + (c.deathBenefitRate.getD c.valuationRate) / 12)

/-- State of a policy for reserve calculation (src/reserves/types.rs). -/
inductive RPolicyState | accumulation | incomeActive | surrendered | matured
deriving DecidableEq

/-- `BenefitCalculator::death_benefit_amount`: the product pays AV on death
(the benefit base is only used for the income stream). -/
def deathBenefitAmount (state : RPolicyState) (accountValue : ℝ) : ℝ :=
  match state with
  | .accumulation => accountValue
  | .incomeActive => accountValue
  | .surrendered => 0
  | .matured => 0

/-- `BenefitCalculator::project_state_forward`: advance the simplified
reserve-side AV/BB projection one month (rider charge at month % 12 = 0,
systematic withdrawal when in income, BB rollup at policy-year-end during
the SC period, mortality decrement on both; no credited interest). -/
def projectStateForward (A : Assumptions) (p : Policy) (month : ℕ)
    (state : RPolicyState) (av bb : ℝ) : ℝ × ℝ :=
  let attainedAge := p.attainedAge month
  let policyYear := p.policyYear month
  let monthInPy := p.monthInPolicyYear month
  let q := A.mortality.monthlyRate attainedAge p.gender month
  let riderCharge : ℝ :=
    if month % 12 = 0 then
      bb * (if state = .incomeActive then A.product.glwb.postActivationCharge
            else A.product.glwb.preActivationCharge)
    else 0
  let systematicWd : ℝ :=
    if state = .incomeActive then
      bb * A.product.glwb.payoutFactors.getSingleLife attainedAge / 12
    else 0
  let av1 := max (av - systematicWd - riderCharge) 0
  let bb1 :=
    if state = .accumulation ∧ monthInPy = 12 ∧ policyYear ≤ p.scPeriod then
      let bbBonus := A.product.glwb.bonusRate
      let rollupRate := A.product.glwb.rollupRate
      let py : ℝ := min (policyYear : ℝ) 10
      let pyPrev : ℝ := min ((policyYear - 1 : ℕ) : ℝ) 10
      bb * ((1 + bbBonus + rollupRate * py) / (1 + bbBonus + rollupRate * pyPrev))
    else bb
  (av1 * (1 - q), bb1 * (1 - q))

/-- The month loop of `BenefitCalculator::death_benefit_pv`, with the fuel
counting the months left to the projection horizon. -/
def deathPvLoop (A : Assumptions) (p : Policy) (vDeath : ℝ) (valMonth : ℕ)
    (actMonth : Option ℕ) : ℕ → ℕ → ℝ → ℝ → ℝ → ℝ
  | 0, _, _, _, _ => 0
  | fuel + 1, t, surv, av, bb =>
      let monthsFromVal := t - valMonth
      let state : RPolicyState :=
        match actMonth with
        | some am => if am ≤ t then .incomeActive else .accumulation
        | none => .accumulation
      let q := A.mortality.monthlyRate (p.attainedAge t) p.gender t
      let db := deathBenefitAmount state av
      let term := surv * q * db * vDeath ^ monthsFromVal
      let surv1 := surv * (1 - q)
      if surv1 < 1e-10 then term
      else
        let next := projectStateForward A p t state av bb
        term + deathPvLoop A p vDeath valMonth actMonth fuel (t + 1) surv1 next.1 next.2

/-- `BenefitCalculator::death_benefit_pv`: mortality-weighted PV of death
benefits along the path that activates income at `actMonth` (none =
never), walking months from the valuation month to the horizon. -/
def deathBenefitPv (A : Assumptions) (curve : DiscountCurve) (maxMonths : ℕ)
    (p : Policy) (valMonth : ℕ) (actMonth : Option ℕ) (startingAv startingBb : ℝ) : ℝ :=
  deathPvLoop A p curve.deathBenefitDiscountFactor valMonth actMonth
    (maxMonths - valMonth) valMonth 1 startingAv startingBb

/-- The month loop of `BenefitCalculator::income_benefit_pv`. -/
def incomePvLoop (A : Assumptions) (p : Policy) (vElect monthlyIncome : ℝ)
    (valMonth actMonth : ℕ) : ℕ → ℕ → ℝ → ℝ
  | 0, _, _ => 0
  | fuel + 1, t, surv =>
      let monthsFromVal := t - valMonth
      let q := A.mortality.monthlyRate (p.attainedAge t) p.gender t
      let pay : ℝ :=
        if actMonth ≤ t then surv * monthlyIncome * vElect ^ monthsFromVal else 0
      let surv1 := surv * (1 - q)
      if surv1 < 1e-10 then pay
      else pay + incomePvLoop A p vElect monthlyIncome valMonth actMonth fuel (t + 1) surv1

/-- `BenefitCalculator::income_benefit_pv`: survival-weighted, discounted PV
of the GLWB income stream when income activates at `actMonth`, with the
payout rate taken at the activation age and the benefit base frozen. -/
def incomeBenefitPv (A : Assumptions) (curve : DiscountCurve) (maxMonths : ℕ)
    (p : Policy) (valMonth actMonth : ℕ) (startingBb : ℝ) : ℝ :=
  if actMonth < valMonth then 0
  else
    let activationAge := p.attainedAge actMonth
    let payoutRate := A.product.glwb.payoutFactors.getSingleLife activationAge
    let monthlyIncome := startingBb * payoutRate / 12
    incomePvLoop A p curve.electiveDiscountFactor monthlyIncome valMonth actMonth
      (maxMonths - valMonth) valMonth 1

/-- The month loop of `BenefitCalculator::remaining_income_pv`. -/
def remainingIncomeLoop (A : Assumptions) (p : Policy) (vElect monthlyIncome : ℝ)
    (valMonth : ℕ) : ℕ → ℕ → ℝ → ℝ
  | 0, _, _ => 0
  | fuel + 1, t, surv =>
      let monthsFromVal := t - valMonth
      let q := A.mortality.monthlyRate (p.attainedAge t) p.gender t
      let pay := surv * monthlyIncome * vElect ^ monthsFromVal
      let surv1 := surv * (1 - q)
      if surv1 < 1e-10 then pay
      else pay + remainingIncomeLoop A p vElect monthlyIncome valMonth fuel (t + 1) surv1

/-- `BenefitCalculator::remaining_income_pv`: PV of income already in
payment, at the locked payout rate. -/
def remainingIncomePv (A : Assumptions) (curve : DiscountCurve) (maxMonths : ℕ)
    (p : Policy) (valMonth : ℕ) (currentBb lockedPayoutRate : ℝ) : ℝ :=
  remainingIncomeLoop A p curve.electiveDiscountFactor
    (currentBb * lockedPayoutRate / 12) valMonth (maxMonths - valMonth) valMonth 1

/-- Breakdown of a reserve by benefit type (struct `ReserveComponents`). -/
structure ReserveComponents where
  deathBenefitPv : ℝ := 0
  incomeBenefitPv : ℝ := 0
  surrenderValuePv : ℝ := 0
  electiveBenefitPv : ℝ := 0
  freePwdPv : ℝ := 0

/-- Method used for reserve calculation. -/
inductive ReserveMethod | carvm | ag33 | ag35Type1 | ag35Type2 | vm22 (scenarioId : ℕ)
deriving DecidableEq

/-- Result of a reserve calculation (struct `ReserveResult`). -/
structure ReserveResult where
  policyId : ℕ
  valuationDate : ℕ
  grossReserve : ℝ
  netReserve : ℝ
  optimalActivationMonth : ℕ
  reserveComponents : ReserveComponents
  method : ReserveMethod
  fromCache : Bool
  csvAtValuation : ℝ

/-- Cached optimal path information (struct `CachedReservePath`). -/
structure CachedReservePath where
  policyId : ℕ
  solveMonth : ℕ
  optimalActivationMonth : ℕ
  reserveAtSolve : ℝ
  avAtSolve : ℝ
  bbAtSolve : ℝ
  itmAtSolve : ℝ
  scRateAtSolve : ℝ
  monthlyIncomeAmount : ℝ
  deathBenefitPvRemaining : ℝ
  optimalPwdSchedule : Option (List ℝ)
  remainingFreeAmountAtSolve : ℝ

/-- `CachedReservePath::new`. -/
def CachedReservePath.nw (policyId solveMonth optimalActivationMonth : ℕ)
    (reserve av bb monthlyIncome deathPv scRate : ℝ) : CachedReservePath where
  policyId := policyId
  solveMonth := solveMonth
  optimalActivationMonth := optimalActivationMonth
  reserveAtSolve := reserve
  avAtSolve := av
  bbAtSolve := bb
  itmAtSolve := if 0 < av then bb / av else f64MAX
  scRateAtSolve := scRate
  monthlyIncomeAmount := monthlyIncome
  deathBenefitPvRemaining := deathPv
  optimalPwdSchedule := none
  remainingFreeAmountAtSolve := av * 0.10

/-- `CachedReservePath::approaching_activation` (saturating subtraction). -/
def CachedReservePath.approachingActivation (c : CachedReservePath)
    (currentMonth thresholdMonths : ℕ) : Bool :=
  c.optimalActivationMonth - currentMonth ≤ thresholdMonths

/-- Result of attempting to roll forward a cached reserve. -/
inductive RollForwardResult
| success (reserve : ℝ) (stillValid : Bool)
| needsResolve

/-- Criteria for re-solving vs rolling forward (struct
`RevalidationCriteria`). -/
structure RevalidationCriteria where
  periodicRevalidationMonths : ℕ
  itmChangeThreshold : ℝ
  activationProximityMonths : ℕ
  avDeviationThreshold : ℝ
  checkScBoundaries : Bool

/-- `RevalidationCriteria::default`. -/
def defaultRevalidationCriteria : RevalidationCriteria where
  periodicRevalidationMonths := 12
  itmChangeThreshold := 0.10
  activationProximityMonths := 6
  avDeviationThreshold := 0.15
  checkScBoundaries := true

/-- `RevalidationCriteria::needs_revalidation`, as the predicate "some
reason was returned": periodic elapse, ITM drift, activation proximity, or
AV deviation. -/
def RevalidationCriteria.needsRevalidation (cr : RevalidationCriteria)
    (cached : CachedReservePath) (currentMonth : ℕ) (currentAv currentBb : ℝ) : Prop :=
  cr.periodicRevalidationMonths ≤ currentMonth - cached.solveMonth
  ∨ (let currentItm := if 0 < currentAv then currentBb / currentAv else f64MAX
     cr.itmChangeThreshold < |currentItm - cached.itmAtSolve| / max cached.itmAtSolve 0.01)
  ∨ cached.approachingActivation currentMonth cr.activationProximityMonths = true
  ∨ cr.avDeviationThreshold < |currentAv - cached.avAtSolve| / max cached.avAtSolve 1

/-- Cache manager (struct `ReserveCache`): association list by policy id
plus hit/miss/revalidation counters. -/
structure ReserveCache where
  entries : List (ℕ × CachedReservePath) := []
  criteria : RevalidationCriteria := defaultRevalidationCriteria
  cacheHits : ℕ := 0
  cacheMisses : ℕ := 0
  revalidations : ℕ := 0

/-- `ReserveCache::get`. -/
def ReserveCache.get (c : ReserveCache) (policyId : ℕ) : Option CachedReservePath :=
  (c.entries.find? (fun e => e.1 = policyId)).map Prod.snd

/-- `ReserveCache::insert` (replaces any entry with the same id). -/
def ReserveCache.insert (c : ReserveCache) (path : CachedReservePath) : ReserveCache :=
  { c with entries := (path.policyId, path) :: c.entries.filter (fun e => e.1 ≠ path.policyId) }

/-- CARVM calculation method. -/
inductive CARVMMethod | bruteForce | dynamicProgramming | hybrid
deriving DecidableEq

/-- Configuration for CARVM reserve calculation (struct `CARVMConfig`). -/
structure CARVMConfig where
  method : CARVMMethod
  maxProjectionMonths : ℕ
  useCaching : Bool
  revalidationFrequency : ℕ
  revalidationCriteria : RevalidationCriteria
  maxDeferralYears : ℕ

/-- `CARVMCalculator::get_av_at_month` (simplified in the source: the
starting AV is returned for every month). -/
def getAvAtMonth (p : Policy) (month : ℕ) : ℝ :=
  if month = 0 then p.startingAv else p.startingAv

/-- `CARVMCalculator::get_bb_at_month` (same simplification). -/
def getBbAtMonth (p : Policy) (month : ℕ) : ℝ :=
  if month = 0 then p.startingBenefitBase else p.startingBenefitBase

/-- `CARVMCalculator::cash_surrender_value`: AV × (1 − sc_rate). -/
def cashSurrenderValue (A : Assumptions) (p : Policy) (month : ℕ) (av : ℝ) : ℝ :=
  av * (1 - A.product.base.surrenderCharges.getRate (p.policyYear month))

/-- `CARVMCalculator::brute_force_solve`: test every activation month from
the valuation month to the deferral limit, then the never-activate path;
return (best activation, best reserve, components). -/
def bruteForceSolve (A : Assumptions) (cfg : CARVMConfig) (p : Policy)
    (valMonth : ℕ) (currentAv currentBb : ℝ) : ℕ × ℝ × ReserveComponents :=
  let curve := DiscountCurve.singleRate p.valRate
  let maxDeferral := valMonth + cfg.maxDeferralYears * 12
  let upper := min maxDeferral cfg.maxProjectionMonths
  let candidates : List ℕ :=
    if valMonth ≤ upper then List.range' valMonth (upper + 1 - valMonth) else []
  let step := fun (best : ℕ × ℝ × ReserveComponents) (actMonth : ℕ) =>
    let deathPv := deathBenefitPv A curve cfg.maxProjectionMonths p valMonth
      (some actMonth) currentAv currentBb
    let incomePv := incomeBenefitPv A curve cfg.maxProjectionMonths p valMonth
      actMonth currentBb
    let total := deathPv + incomePv
    if best.2.1 < total then
      (actMonth, total,
        { deathBenefitPv := deathPv, incomeBenefitPv := incomePv,
          surrenderValuePv := 0, electiveBenefitPv := incomePv, freePwdPv := 0 })
    else best
  let best := candidates.foldl step (u32MAX, 0, {})
  let neverDeathPv := deathBenefitPv A curve cfg.maxProjectionMonths p valMonth
    none currentAv currentBb
  if best.2.1 < neverDeathPv then
    (u32MAX, neverDeathPv,
      { deathBenefitPv := neverDeathPv, incomeBenefitPv := 0,
        surrenderValuePv := 0, electiveBenefitPv := 0, freePwdPv := 0 })
  else best

/-- `CARVMCalculator::full_solve_and_cache`: run the configured solver (the
DP and hybrid variants of the source fall back to brute force), floor the
reserve at CSV, cache the raw solver result, and report the sentinel
activation with `surrender_value_pv = CSV` when CSV is binding. -/
def fullSolveAndCache (A : Assumptions) (cfg : CARVMConfig) (cache : ReserveCache)
    (p : Policy) (valMonth : ℕ) (currentAv currentBb : ℝ) :
    ReserveResult × ReserveCache :=
  let solved :=
    match cfg.method with
    | .bruteForce => bruteForceSolve A cfg p valMonth currentAv currentBb
    | .dynamicProgramming => bruteForceSolve A cfg p valMonth currentAv currentBb
    | .hybrid => bruteForceSolve A cfg p valMonth currentAv currentBb
  let optimalMonth := solved.1
  let reserve := solved.2.1
  let components := solved.2.2
  let csv := cashSurrenderValue A p valMonth currentAv
  let finalReserve := max reserve csv
  let cache1 :=
    if cfg.useCaching then
      let monthlyIncome : ℝ :=
        if optimalMonth < u32MAX then
          let activationAge := p.attainedAge optimalMonth
          currentBb * A.product.glwb.payoutFactors.getSingleLife activationAge / 12
        else 0
      let scRate := A.product.base.surrenderCharges.getRate (p.policyYear valMonth)
      cache.insert (CachedReservePath.nw p.policyId valMonth optimalMonth reserve
        currentAv currentBb monthlyIncome components.deathBenefitPv scRate)
    else cache
  let isCsvBinding := |finalReserve - csv| < 0.01
  ({ policyId := p.policyId
     valuationDate := valMonth
     grossReserve := finalReserve
     netReserve := finalReserve
     optimalActivationMonth := if isCsvBinding then u32MAX else optimalMonth
     reserveComponents :=
       if isCsvBinding then { components with surrenderValuePv := csv } else components
     method := .carvm
     fromCache := false
     csvAtValuation := csv }, cache1)

/-- The month loop of `CARVMCalculator::roll_accumulation_reserve`. -/
def rollAccLoop (A : Assumptions) (p : Policy) (v : ℝ) : ℕ → ℕ → ℝ → ℝ
  | 0, _, r => r
  | fuel + 1, t, r =>
      let q := A.mortality.monthlyRate (p.attainedAge t) p.gender t
      rollAccLoop A p v fuel (t + 1) (r / ((1 - q) * v))

/-- `CARVMCalculator::roll_accumulation_reserve`: divide by `p·v` for each
elapsed month (the source's simplification omits the DB cost term). -/
def rollAccumulationReserve (A : Assumptions) (p : Policy) (rPrev : ℝ)
    (tPrev tNow : ℕ) : ℝ :=
  rollAccLoop A p (1 / (1 + p.valRate / 12)) (tNow - tPrev) tPrev rPrev

/-- `CARVMCalculator::try_roll_forward`. -/
def tryRollForward (A : Assumptions) (cfg : CARVMConfig) (p : Policy)
    (valMonth : ℕ) (cached : CachedReservePath) : RollForwardResult :=
  let tStar := cached.optimalActivationMonth
  let currentAv := getAvAtMonth p valMonth
  let currentBb := getBbAtMonth p valMonth
  if valMonth < tStar then
    let rolled := rollAccumulationReserve A p cached.reserveAtSolve cached.solveMonth valMonth
    let currentItm := if 0 < currentAv then currentBb / currentAv else f64MAX
    let stillValid : Bool :=
      |currentItm - cached.itmAtSolve| / max cached.itmAtSolve 0.01 < 0.10
    .success rolled stillValid
  else if tStar ≤ valMonth ∧ tStar < u32MAX then
    let curve := DiscountCurve.singleRate p.valRate
    let activationAge := p.attainedAge tStar
    let payoutRate := A.product.glwb.payoutFactors.getSingleLife activationAge
    let incomePv := remainingIncomePv A curve cfg.maxProjectionMonths p valMonth
      currentBb payoutRate
    let deathPv := deathBenefitPv A curve cfg.maxProjectionMonths p valMonth
      (some tStar) currentAv currentBb
    .success (incomePv + deathPv) true
  else .needsResolve

section
open Classical

/-- `CARVMCalculator::calculate_with_cache` (the body of
`calculate_reserve`): consult the cache, revalidate or roll forward, fall
back to a full solve; CSV is re-applied as floor on the cache-hit path. -/
def calculateWithCache (A : Assumptions) (cfg : CARVMConfig) (cache : ReserveCache)
    (p : Policy) (valMonth : ℕ) : ReserveResult × ReserveCache :=
  let currentAv := getAvAtMonth p valMonth
  let currentBb := getBbAtMonth p valMonth
  if cfg.useCaching then
    match cache.get p.policyId with
    | some cached =>
        if cfg.revalidationCriteria.needsRevalidation cached valMonth currentAv currentBb then
          let cache := { cache with revalidations := cache.revalidations + 1 }
          fullSolveAndCache A cfg cache p valMonth currentAv currentBb
        else
          match tryRollForward A cfg p valMonth cached with
          | .success reserve _ =>
              let cache := { cache with cacheHits := cache.cacheHits + 1 }
              let csv := cashSurrenderValue A p valMonth currentAv
              let finalReserve := max reserve csv
              ({ policyId := p.policyId
                 valuationDate := valMonth
                 grossReserve := finalReserve
                 netReserve := finalReserve
                 optimalActivationMonth := cached.optimalActivationMonth
                 reserveComponents :=
                   { deathBenefitPv := cached.deathBenefitPvRemaining
                     incomeBenefitPv := reserve - cached.deathBenefitPvRemaining
                     surrenderValuePv := if |finalReserve - csv| < 0.01 then csv else 0
                     electiveBenefitPv := reserve - cached.deathBenefitPvRemaining
                     freePwdPv := 0 }
                 method := .carvm
                 fromCache := true
                 csvAtValuation := csv }, cache)
          | .needsResolve =>
              let cache := { cache with cacheMisses := cache.cacheMisses + 1 }
              fullSolveAndCache A cfg cache p valMonth currentAv currentBb
    | none =>
        let cache := { cache with cacheMisses := cache.cacheMisses + 1 }
        fullSolveAndCache A cfg cache p valMonth currentAv currentBb
  else fullSolveAndCache A cfg cache p valMonth currentAv currentBb

/-- `ReserveCalculator::calculate_reserve` for the CARVM calculator. -/
def calculateReserve (A : Assumptions) (cfg : CARVMConfig) (cache : ReserveCache)
    (p : Policy) (valMonth : ℕ) : ReserveResult × ReserveCache :=
  calculateWithCache A cfg cache p valMonth

end

end

/-! ## IRR solver (src/projection/irr.rs), embedded over ℚ: the solver uses
only field arithmetic, integer powers and comparisons, so it is exact on
rational inputs and fully computable. -/

/-- `npv_and_derivative`: NPV at a periodic rate and its analytic
derivative (the t = 0 term contributes no derivative). -/
def npvAndDerivative (cashflows : List ℚ) (rate : ℚ) : ℚ × ℚ :=
  (cashflows.enum.foldl (fun acc tc =>
      let t : ℕ := tc.1
      let cf := tc.2
      (acc.1 + cf / (1 + rate) ^ t,
       if 0 < t then acc.2 - (t : ℚ) * cf / (1 + rate) ^ (t + 1) else acc.2))
    (0, 0))

/-- `npv_at_rate`. -/
def npvAtRate (cashflows : List ℚ) (rate : ℚ) : ℚ :=
  (cashflows.enum.map (fun tc => tc.2 / (1 + rate) ^ tc.1)).sum

/-- The bisection loop of `calculate_irr_bisection` (1000-iteration cap). -/
def bisectionLoop (cashflows : List ℚ) (periodsPerYear : ℕ) :
    ℕ → ℚ → ℚ → Option ℚ
  | 0, _, _ => none
  | fuel + 1, low, high =>
      let mid := (low + high) / 2
      let npvMid := npvAtRate cashflows mid
      if |npvMid| < 1e-10 ∨ (high - low) / 2 < 1e-10 then
        some ((1 + mid) ^ periodsPerYear - 1)
      else if npvMid * npvAtRate cashflows low < 0 then
        bisectionLoop cashflows periodsPerYear fuel low mid
      else bisectionLoop cashflows periodsPerYear fuel mid high

/-- `calculate_irr_bisection`: bisection on [-0.99, 10], none when the
bracket NPVs share a sign. -/
def calculateIrrBisection (cashflows : List ℚ) (periodsPerYear : ℕ) : Option ℚ :=
  let npvLow := npvAtRate cashflows (-0.99)
  let npvHigh := npvAtRate cashflows 10
  if 0 < npvLow * npvHigh then none
  else bisectionLoop cashflows periodsPerYear 1000 (-0.99) 10

/-- The Newton-Raphson loop of `calculate_irr` (1000-iteration cap,
iterates clamped to [-0.99, 10], bisection fallback on a collapsed
derivative or non-convergence). -/
def newtonLoop (cashflows : List ℚ) (periodsPerYear : ℕ) : ℕ → ℚ → Option ℚ
  | 0, _ => calculateIrrBisection cashflows periodsPerYear
  | fuel + 1, rate =>
      let nd := npvAndDerivative cashflows rate
      if |nd.2| < 1e-20 then calculateIrrBisection cashflows periodsPerYear
      else
        let newRate := min (max (rate - nd.1 / nd.2) (-0.99)) 10
        if |newRate - rate| < 1e-10 then some ((1 + newRate) ^ periodsPerYear - 1)
        else newtonLoop cashflows periodsPerYear fuel newRate

/-- `calculate_irr`: none on an empty vector; 0 when every entry is within
1e-10 of zero; none without a sign change; otherwise Newton-Raphson on the
monthly rate (bisection fallback), annualised to
`(1 + r_monthly)^periods - 1`. -/
def calculateIrr (cashflows : List ℚ) (periodsPerYear : ℕ) : Option ℚ :=
  if cashflows.isEmpty then none
  else if cashflows.all (fun cf => |cf| < 1e-10) then some 0
  else
    let hasPositive := cashflows.any (fun cf => 1e-10 < cf)
    let hasNegative := cashflows.any (fun cf => cf < -1e-10)
    if ¬hasPositive ∨ ¬hasNegative then none
    else newtonLoop cashflows periodsPerYear 1000 (0.05 / periodsPerYear)

/-- `calculate_cost_of_funds`: IRR of the monthly net cashflows. -/
def calculateCostOfFunds (netCashflows : List ℚ) : Option ℚ :=
  calculateIrr netCashflows 12

noncomputable section

/-! ## Concrete instances used to exercise the embedding -/

/-- A commission schedule paying nothing (concrete instance of the
spec-modelled schedule data). -/
def zeroCommissions : CommissionSchedule where
  calcAgent := fun _ _ => 0
  calcImoNet := fun _ _ => 0
  calcImoConv := fun _ _ => 0
  calcWsNet := fun _ _ => 0
  calcWsConv := fun _ _ => 0
  bonusRate := fun _ => 0

/-- Default pricing assumptions with the zero commission schedule. -/
def A0 : Assumptions := defaultPricing zeroCommissions

/-- The test policy of engine.rs (id 2800, qualified male 77). -/
def testPolicy : Policy where
  policyId := 2800
  qualStatus := .Q
  issueAge := 77
  gender := .male
  initialBenefitBase := 27178.16
  initialPols := 0.039
  initialPremium := 20906.28
  benefitBaseBucket := .over500k
  percentage := 1
  creditingStrategy := .indexed
  scPeriod := 10
  valRate := 0.0475
  mgir := 0.01
  bonus := 0.3
  rollupType := .simple
  durationMonths := 0
  incomeActivated := false
  glwbStartYear := 99
  currentAv := none
  currentBenefitBase := none

/-- A pre-seasoned variant of the test policy: 12 months of prior
duration, so projection month 1 falls in policy year 2. -/
def seasonedPolicy : Policy :=
  { testPolicy with qualStatus := .N, durationMonths := 12 }

/-- A zero-crediting projection configuration over 12 months. -/
def cfg0 : ProjectionConfig where
  projectionMonths := 12
  crediting := .optionBudget 0 0
  detailedOutput := true
  treasuryChange := 0
  fixedLapseRate := none
  hedgeParams := some defaultHedgeParams

/-- Assumptions for the reserve run: default pricing except that the
payout-factor table has the single loaded band (150,150) with rate 0 and
the surrender-charge schedule is empty (rate 0 in every year). -/
def A5 : Assumptions :=
  { A0 with product :=
    { A0.product with
      glwb := { A0.product.glwb with payoutFactors := ⟨[((150, 150), 0)]⟩ }
      base := { A0.product.base with surrenderCharges := ⟨[]⟩ } } }

/-- Policy for the reserve run: issue age 150 (every attained age is past
the mortality table, so the monthly rate is exactly 1/12), 11 months
pre-seasoned (the attained age steps to 151 at projection month 2),
premium 1, benefit base 0.01, zero valuation rate, no surrender-charge
period. -/
def p5 : Policy :=
  { testPolicy with
    policyId := 1
    issueAge := 150
    durationMonths := 11
    initialPremium := 1
    initialBenefitBase := 0.01
    valRate := 0
    scPeriod := 0 }

/-- CARVM configuration for the reserve run: brute force over a 3-month
horizon, caching on, activation-proximity revalidation disabled. -/
def carvmCfg5 : CARVMConfig where
  method := .bruteForce
  maxProjectionMonths := 3
  useCaching := true
  revalidationFrequency := 12
  revalidationCriteria := { defaultRevalidationCriteria with activationProximityMonths := 0 }
  maxDeferralYears := 2

/-! ## Validity of assumption data

The projection invariants hold for any assumption set whose tabulated
rates are genuine rates; these predicates record those conditions, which
every table shipped with the source satisfies. -/

/-- All mortality base rates, age factors and improvement rates lie in
[0, 1]. -/
def MortValid (t : MortalityTable) : Prop :=
  (∀ pr ∈ t.baseRates, 0 ≤ pr.1 ∧ pr.1 ≤ 1 ∧ 0 ≤ pr.2 ∧ pr.2 ≤ 1)
  ∧ (∀ f ∈ t.ageFactors, 0 ≤ f ∧ f ≤ 1)
  ∧ (∀ pr ∈ t.improvementRates, 0 ≤ pr.1 ∧ pr.1 ≤ 1 ∧ 0 ≤ pr.2 ∧ pr.2 ≤ 1)

/-- The free-withdrawal percentage, RMD rates and utilization rates lie
in [0, 1]. -/
def PwdValid (w : PwdAssumptions) : Prop :=
  (0 ≤ w.freePct ∧ w.freePct ≤ 1)
  ∧ (∀ pr ∈ w.rmd.rates, 0 ≤ pr.2 ∧ pr.2 ≤ 1)
  ∧ (∀ r ∈ w.freeUtilization.rates, 0 ≤ r ∧ r ≤ 1)

/-- All payout-factor band rates are nonnegative. -/
def PayoutValid (pf : PayoutFactors) : Prop := ∀ b ∈ pf.singleLife, 0 ≤ b.2

/-- Validity of a whole projection setup: rate tables in range,
nonnegative GLWB bonus/rollup rates, a fixed-lapse override (when
configured) in [0, 1], and a nonnegative starting benefit base. -/
def ValidSetup (A : Assumptions) (cfg : ProjectionConfig) (p : Policy) : Prop :=
  MortValid A.mortality ∧ PwdValid A.pwd ∧ PayoutValid A.product.glwb.payoutFactors
  ∧ 0 ≤ A.product.glwb.bonusRate ∧ 0 ≤ A.product.glwb.rollupRate
  ∧ (∀ r, cfg.fixedLapseRate = some r → 0 ≤ r ∧ r ≤ 1)
  ∧ 0 ≤ p.startingBenefitBase

/-- The systematic-withdrawal amount `calculate_decrements` writes for a
state: BB × payout rate / 12 when income is active (locked rate if
present, else the current-age factor), 0 otherwise. -/
def systematicWdOf (A : Assumptions) (st : ProjectionState) : ℝ :=
  if st.incomeActivated then
    let payoutRate :=
      match st.lockedPayoutRate with
      | some r => r
      | none => A.product.glwb.payoutFactors.getSingleLife st.attainedAge
    st.bopBenefitBase * payoutRate / 12
  else 0

/-- The blank row `calculate_month` seeds with the state's BOP values. -/
def seedRow (p : Policy) (st : ProjectionState) : CashflowRow :=
  { projectionMonth := st.projectionMonth
    policyYear := st.policyYear
    monthInPolicyYear := st.monthInPolicyYear
    attainedAge := st.attainedAge
    bopAv := st.bopAv
    bopBenefitBase := st.bopBenefitBase
    preDecrementAv := st.bopAv
    lives := st.lives
    premium := if st.projectionMonth = 1 then p.initialPremium else 0 }

/-- State invariant carried through the projection loop: the benefit base
is nonnegative and any locked payout rate is nonnegative. -/
def Inv (st : ProjectionState) : Prop :=
  0 ≤ st.bopBenefitBase ∧ ∀ r, st.lockedPayoutRate = some r → 0 ≤ r

/-- The cached path the month-0 full solve of the reserve run stores:
activation month 2 with the raw (un-floored) solver reserve. -/
def path5 : CachedReservePath :=
  CachedReservePath.nw 1 0 2 (1056301567 / 4976640000) 1 (1 / 100) (3 / 40000)
    (1055987935 / 4976640000) 0

/-- The cache state after the month-0 full solve of the reserve run. -/
def K5 : ReserveCache where
  entries := [(1, path5)]
  criteria := defaultRevalidationCriteria
  cacheHits := 0
  cacheMisses := 1
  revalidations := 0

/-- A minimal single-age mortality table with rates in range. -/
def tinyMortality : MortalityTable where
  baseRates := [(0.1, 0.2)]
  ageFactors := [0.5]
  improvementRates := [(0.01, 0.01)]
  conversionMethod := .standard
  tableBaseYear := 2012
  projectionYear := 2026

/-- Default pricing assumptions with the tiny mortality table, used to
exercise the projection invariants on a concrete valid setup. -/
def Atiny : Assumptions := { A0 with mortality := tinyMortality }

end

/-! ## Theorems -/

/-- Closed form of the benefit-base update: persistency times the
conditional rollup factor. -/
theorem updateBenefitBase_eq (A : Assumptions) (p : Policy)
    (st : ProjectionState) (row : CashflowRow) :
    (updateBenefitBase A p st row).bopBenefitBase
      = st.bopBenefitBase
        * ((1 - row.finalMortality) * (1 - row.finalLapseRate)
           * (1 - row.nonSystematicPwdRate))
        * (if st.incomeActivated = false ∧ st.monthInPolicyYear = 12
              ∧ st.policyYear ≤ p.scPeriod then
             (1 + A.product.glwb.bonusRate
                + A.product.glwb.rollupRate * min (st.policyYear : ℝ) 10)
             / (1 + A.product.glwb.bonusRate
                + A.product.glwb.rollupRate * min ((st.policyYear - 1 : ℕ) : ℝ) 10)
           else 1) := by
  simp only [updateBenefitBase]
  cases hAct : st.incomeActivated with
  | true => simp [hAct]
  | false =>
      by_cases hCond : st.monthInPolicyYear = 12 ∧ st.policyYear ≤ p.scPeriod
      · simp [hAct, hCond]
      · simp [hAct, hCond]

/-- C1: in every month with `sum_of_rates = q_mort + q_lapse + q_pwd +
rider_rate` strictly positive, the kernel allocates the decrement pool
`pre_dec_AV × (1 − (1−q_mort)(1−q_lapse)(1−q_pwd)(1−rider_rate))`
proportionally by rate — mortality share `pool × q_mort / sum`, lapse
share net of SC `pool × q_lapse / sum × (fpw + (1−fpw)(1−sc))`,
surrender-charge share `pool × q_lapse / sum × (1−fpw) × sc`, PWD share
`pool × q_pwd / sum + systematic_WD`, rider share `pool × rider / sum` —
and in every month with `sum_of_rates = 0` all shares are zero except the
PWD decrement, which equals the systematic withdrawal. -/
theorem C1_proportional_decrement_allocation (A : Assumptions)
    (cfg : ProjectionConfig) (p : Policy) (st : ProjectionState) (row : CashflowRow) :
    let r := calculateCashflows A cfg p st row
    let sysWd := row.systematicWithdrawal
    let preDecAv := max (st.bopAv - sysWd) 0 * (1 + row.creditedRate)
    let riderRate :=
      if 0 < st.bopAv then row.riderChargeRate * st.bopBenefitBase / st.bopAv else 0
    let sumOfRates := row.finalMortality + row.finalLapseRate
      + row.nonSystematicPwdRate + riderRate
    let pool := preDecAv * (1 - (1 - row.finalMortality) * (1 - row.finalLapseRate)
      * (1 - row.nonSystematicPwdRate) * (1 - riderRate))
    (0 < sumOfRates →
      r.mortalityDec = pool * row.finalMortality / sumOfRates
      ∧ r.lapseDec = pool * row.finalLapseRate / sumOfRates
          * (row.fpwPct + (1 - row.fpwPct) * (1 - row.surrenderCharge))
      ∧ r.surrenderChargesDec = pool * row.finalLapseRate / sumOfRates
          * (1 - row.fpwPct) * row.surrenderCharge
      ∧ r.pwdDec = pool * row.nonSystematicPwdRate / sumOfRates + sysWd
      ∧ r.riderChargesDec = pool * riderRate / sumOfRates)
    ∧ (sumOfRates = 0 →
      r.mortalityDec = 0 ∧ r.lapseDec = 0 ∧ r.surrenderChargesDec = 0
      ∧ r.riderChargesDec = 0 ∧ r.pwdDec = sysWd) := by
  refine ⟨fun h => ?_, fun h => ?_⟩
  · simp only [calculateCashflows, if_pos h]
    refine ⟨by ring, by ring, by ring, by ring, by ring⟩
  · have h' : ¬ (0 : ℝ) < row.finalMortality + row.finalLapseRate
      + row.nonSystematicPwdRate
      + (if 0 < st.bopAv then row.riderChargeRate * st.bopBenefitBase / st.bopAv else 0) := by
      rw [h]; exact lt_irrefl 0
    simp only [calculateCashflows, if_neg h']
    exact ⟨trivial, trivial, trivial, trivial, trivial⟩

/-- Witness for C1 at a concrete month: BOP AV 2, rates 1/2 each, no rider
charge and no systematic withdrawal, so the pool is `2 × 7/8` and the
mortality share is `pool × (1/2) / (3/2) = 7/12`. -/
theorem C1_witness :
    (calculateCashflows A0 cfg0 testPolicy
      { ProjectionState.fromPolicy testPolicy with bopAv := 2, livesPersistency := 1 }
      { finalMortality := 1/2, finalLapseRate := 1/2, nonSystematicPwdRate := 1/2,
        riderChargeRate := 0, creditedRate := 0, systematicWithdrawal := 0,
        fpwPct := 0, surrenderCharge := 0 }).mortalityDec = 7 / 12 := by
  have h := (C1_proportional_decrement_allocation A0 cfg0 testPolicy
    { ProjectionState.fromPolicy testPolicy with bopAv := 2, livesPersistency := 1 }
    { finalMortality := 1/2, finalLapseRate := 1/2, nonSystematicPwdRate := 1/2,
      riderChargeRate := 0, creditedRate := 0, systematicWithdrawal := 0,
      fpwPct := 0, surrenderCharge := 0 }).1 (by norm_num)
  rw [h.1]
  norm_num

/-- C2: the per-cell total net cashflow of every month equals premium minus
the mortality, lapse and PWD decrements (the per-cell `_dec` figures, not
the lives-multiplied `_cf` figures, which carry the extra `lives` factor),
minus expenses and compensation (agent + IMO override + wholesaler
override + bonus), plus chargebacks and hedge gains; the surrender-charge
and rider-charge decrements are not subtracted. -/
theorem C2_total_net_cashflow (A : Assumptions) (cfg : ProjectionConfig)
    (p : Policy) (st : ProjectionState) (row : CashflowRow) :
    let r := calculateCashflows A cfg p st row
    r.totalNetCashflow
      = r.premium - r.mortalityDec - r.lapseDec - r.pwdDec - r.expenses
        - (r.agentCommission + r.imoOverride + r.wholesalerOverride + r.bonusComp)
        + r.chargebacks + r.hedgeGains
    ∧ r.mortalityCf = r.mortalityDec * st.lives
    ∧ r.lapseCf = r.lapseDec * st.lives
    ∧ r.pwdCf = r.pwdDec * st.lives
    ∧ r.surrenderChargesCf = r.surrenderChargesDec * st.lives
    ∧ r.riderChargesCf = r.riderChargesDec * st.lives := by
  exact ⟨rfl, rfl, rfl, rfl, rfl, rfl⟩

/-- C3: at the end of every projection month the benefit base is multiplied
by `(1−q_mort)(1−q_lapse)(1−q_pwd)`, and exactly when income is not
activated, month-in-policy-year is 12 and the policy year is within the SC
period it is further multiplied by
`(1 + bb_bonus + rollup·min(py,10)) / (1 + bb_bonus + rollup·min(py−1,10))`
with `bb_bonus` and `rollup` from the GLWB assumptions; the result never
depends on the policy's premium bonus field or on the month's systematic
withdrawal, and with the default GLWB features (bonus 0.3, rollup 0.10),
SC period 10, income off, policy year 5 at month 12 the factor is
1.8/1.7. -/
theorem C3_benefit_base_rollup (A : Assumptions) (p : Policy)
    (st : ProjectionState) (row : CashflowRow) :
    let pers := (1 - row.finalMortality) * (1 - row.finalLapseRate)
      * (1 - row.nonSystematicPwdRate)
    ((updateBenefitBase A p st row).bopBenefitBase
      = st.bopBenefitBase * pers
        * (if st.incomeActivated = false ∧ st.monthInPolicyYear = 12
              ∧ st.policyYear ≤ p.scPeriod then
             (1 + A.product.glwb.bonusRate
                + A.product.glwb.rollupRate * min (st.policyYear : ℝ) 10)
             / (1 + A.product.glwb.bonusRate
                + A.product.glwb.rollupRate * min ((st.policyYear - 1 : ℕ) : ℝ) 10)
           else 1))
    ∧ (∀ b, (updateBenefitBase A { p with bonus := b } st row).bopBenefitBase
        = (updateBenefitBase A p st row).bopBenefitBase)
    ∧ (∀ s, (updateBenefitBase A p st
          { row with systematicWithdrawal := s }).bopBenefitBase
        = (updateBenefitBase A p st row).bopBenefitBase)
    ∧ (st.incomeActivated = true →
        (updateBenefitBase A p st row).bopBenefitBase = st.bopBenefitBase * pers)
    ∧ (st.policyYear = 5 → st.monthInPolicyYear = 12 → st.incomeActivated = false →
        (updateBenefitBase A0 testPolicy st row).bopBenefitBase
          = st.bopBenefitBase * pers * (1.8 / 1.7)) := by
  intro pers
  have key : ∀ (A' : Assumptions) (p' : Policy),
      (updateBenefitBase A' p' st row).bopBenefitBase
      = st.bopBenefitBase * pers
        * (if st.incomeActivated = false ∧ st.monthInPolicyYear = 12
              ∧ st.policyYear ≤ p'.scPeriod then
             (1 + A'.product.glwb.bonusRate
                + A'.product.glwb.rollupRate * min (st.policyYear : ℝ) 10)
             / (1 + A'.product.glwb.bonusRate
                + A'.product.glwb.rollupRate * min ((st.policyYear - 1 : ℕ) : ℝ) 10)
           else 1) := fun A' p' => updateBenefitBase_eq A' p' st row
  refine ⟨key A p, fun b => ?_, fun s => ?_, fun hAct => ?_, fun h5 h12 hA => ?_⟩
  · rw [key A { p with bonus := b }, key A p]
  · have : (updateBenefitBase A p st { row with systematicWithdrawal := s })
        = updateBenefitBase A p st row := by
      simp [updateBenefitBase]
    rw [this]
  · rw [key A p]; simp [hAct]
  · rw [key A0 testPolicy]
    have : st.incomeActivated = false ∧ st.monthInPolicyYear = 12
        ∧ st.policyYear ≤ testPolicy.scPeriod := by
      refine ⟨hA, h12, ?_⟩
      rw [h5]; norm_num [testPolicy]
    rw [if_pos this, h5]
    norm_num [A0, defaultPricing, defaultGlwb]

/-- Witness for C3 at the claim's concrete setup: policy year 5, month 12,
income off, unit rates zero, so the benefit base is multiplied by exactly
1.8/1.7. -/
theorem C3_witness :
    (updateBenefitBase A0 testPolicy
      { ProjectionState.fromPolicy testPolicy with
          policyYear := 5, monthInPolicyYear := 12, bopBenefitBase := 1.7 }
      {}).bopBenefitBase = 1.8 := by
  have h := (C3_benefit_base_rollup A0 testPolicy
    { ProjectionState.fromPolicy testPolicy with
        policyYear := 5, monthInPolicyYear := 12, bopBenefitBase := 1.7 }
    {}).2.2.2.2 rfl rfl rfl
  rw [h]
  show (1.7 : ℝ) * ((1 - 0) * (1 - 0) * (1 - 0)) * (1.8 / 1.7) = 1.8
  norm_num

/-- C7: after projection month 1 and with positive ITM, the monthly lapse
rate is `1 − (1 − annual)^skew`; the skew is 1/12 outside the shock year
(policy year = SC period + 1) and 0.4 / 0.3 / 0.2 / 0.1/9 inside it for
months 1 / 2 / 3 / 4-12, and the twelve shock-year skews sum to exactly 1. -/
theorem C7_monthly_lapse_skew (m : LapseModel) (pm py mipy sc : ℕ) (act : Bool)
    (itm : ℝ) (bucket : BenefitBaseBucket) (hpm : pm ≠ 1) (hitm : 0 < itm) :
    m.monthlyLapseRateWithSkew pm py mipy act itm sc bucket
      = 1 - (1 - m.annualLapseProbWithBucket py act itm bucket sc)
            ^ (m.getSkew py mipy sc)
    ∧ (py ≠ sc + 1 → m.getSkew py mipy sc = 1 / 12)
    ∧ (py = sc + 1 →
        m.getSkew py 1 sc = 0.4 ∧ m.getSkew py 2 sc = 0.3 ∧ m.getSkew py 3 sc = 0.2
        ∧ (∀ k, 4 ≤ k → m.getSkew py k sc = 0.1 / 9))
    ∧ (Finset.range 12).sum (fun i => m.getSkew (sc + 1) (i + 1) sc) = 1 := by
  refine ⟨?_, fun hny => ?_, fun hy => ?_, ?_⟩
  · rw [LapseModel.monthlyLapseRateWithSkew, if_neg hpm, if_neg (not_le.mpr hitm)]
  · rw [LapseModel.getSkew, if_neg hny]
  · subst hy
    refine ⟨by simp [LapseModel.getSkew], by simp [LapseModel.getSkew],
      by simp [LapseModel.getSkew], fun k hk => ?_⟩
    rw [LapseModel.getSkew, if_pos rfl, if_neg (by omega), if_neg (by omega),
      if_neg (by omega)]
  · rw [show (12 : ℕ) = 11 + 1 by rfl]
    repeat rw [Finset.sum_range_succ]
    rw [Finset.sum_range_zero]
    simp only [LapseModel.getSkew, if_pos rfl]
    norm_num

/-- Witness for C7 at projection month 2 of the shock year (SC period 10,
policy year 11), ITM 1.3. -/
theorem C7_witness :
    defaultPredictiveModel.monthlyLapseRateWithSkew 122 11 1 false 1.3 10 .under50k
      = 1 - (1 - defaultPredictiveModel.annualLapseProbWithBucket 11 false 1.3
            .under50k 10) ^ (defaultPredictiveModel.getSkew 11 1 10)
    ∧ defaultPredictiveModel.getSkew 11 1 10 = 0.4
    ∧ (Finset.range 12).sum (fun i => defaultPredictiveModel.getSkew (10 + 1) (i + 1) 10) = 1 := by
  have h := C7_monthly_lapse_skew defaultPredictiveModel 122 11 1 10 false 1.3 .under50k
    (by norm_num) (by norm_num)
  exact ⟨h.1, (h.2.2.1 rfl).1, h.2.2.2⟩

/-- C10: `PayoutFactors::get_single_life` returns the hard-coded
maximum-band rate 0.090 for every age contained in no configured band; in
particular every age below 50 under the default bands, and every age
absent from the keys of a table of single-year bands (the shape produced
when factors are loaded from CSV). -/
theorem C10_payout_factor_fallback :
    (∀ (pf : PayoutFactors) (age : ℕ),
      (∀ b ∈ pf.singleLife, ¬(b.1.1 ≤ age ∧ age ≤ b.1.2)) →
      pf.getSingleLife age = 0.090)
    ∧ (∀ age, age < 50 → defaultPayoutFactors.getSingleLife age = 0.090)
    ∧ (∀ (L : List ((ℕ × ℕ) × ℝ)), (∀ b ∈ L, b.1.1 = b.1.2) →
        ∀ age, age ∉ L.map (fun b => b.1.1) →
        PayoutFactors.getSingleLife ⟨L⟩ age = 0.090) := by
  have part1 : ∀ (pf : PayoutFactors) (age : ℕ),
      (∀ b ∈ pf.singleLife, ¬(b.1.1 ≤ age ∧ age ≤ b.1.2)) →
      pf.getSingleLife age = 0.090 := by
    intro pf age h
    rw [PayoutFactors.getSingleLife]
    have : pf.singleLife.find? (fun b => decide (b.1.1 ≤ age ∧ age ≤ b.1.2)) = none := by
      rw [List.find?_eq_none]
      intro b hb
      simpa using h b hb
    rw [this]
  refine ⟨part1, fun age hage => ?_, fun L hL age hage => ?_⟩
  · refine part1 _ age ?_
    have hmin : ∀ b ∈ defaultPayoutFactors.singleLife, 50 ≤ b.1.1 := by
      simp [defaultPayoutFactors, List.forall_mem_cons]
    intro b hb hcontra
    have := hmin b hb
    omega
  · refine part1 _ age ?_
    intro b hb h
    have heq := hL b hb
    exact hage (List.mem_map.mpr ⟨b, hb, by omega⟩)

/-- Witness for C10: age 40 lies in no default band yet receives 0.090. -/
theorem C10_witness : defaultPayoutFactors.getSingleLife 40 = 0.090 :=
  C10_payout_factor_fallback.2.1 40 (by norm_num)

/-- Any value the bisection loop returns is an annualised monthly rate. -/
theorem bisectionLoop_some (l : List ℚ) (ppy : ℕ) :
    ∀ (fuel : ℕ) (low high r : ℚ), bisectionLoop l ppy fuel low high = some r →
    ∃ m, r = (1 + m) ^ ppy - 1 := by
  intro fuel
  induction fuel with
  | zero => intro low high r h; exact absurd h (by simp [bisectionLoop])
  | succ n ih =>
      intro low high r h
      rw [bisectionLoop] at h
      split_ifs at h with h1 h2
      · exact ⟨(low + high) / 2, (Option.some_inj.mp h).symm⟩
      · exact ih low ((low + high) / 2) r h
      · exact ih ((low + high) / 2) high r h

/-- Any value `calculate_irr_bisection` returns is an annualised monthly
rate. -/
theorem calculateIrrBisection_some (l : List ℚ) (ppy : ℕ) (r : ℚ)
    (h : calculateIrrBisection l ppy = some r) : ∃ m, r = (1 + m) ^ ppy - 1 := by
  rw [calculateIrrBisection] at h
  split_ifs at h
  exact bisectionLoop_some l ppy 1000 (-0.99) 10 r h

/-- Any value the Newton loop returns is an annualised monthly rate. -/
theorem newtonLoop_some (l : List ℚ) (ppy : ℕ) :
    ∀ (fuel : ℕ) (rate r : ℚ), newtonLoop l ppy fuel rate = some r →
    ∃ m, r = (1 + m) ^ ppy - 1 := by
  intro fuel
  induction fuel with
  | zero => intro rate r h; exact calculateIrrBisection_some l ppy r h
  | succ n ih =>
      intro rate r h
      simp only [newtonLoop] at h
      split_ifs at h with h1 h2
      · exact calculateIrrBisection_some l ppy r h
      · exact ⟨min (max (rate - (npvAndDerivative l rate).1 / (npvAndDerivative l rate).2) (-0.99)) 10,
          (Option.some_inj.mp h).symm⟩
      · exact ih _ r h

/-- C9: a nonempty cashflow vector whose entries are all within 1e-10 of
zero yields IRR 0; a vector whose entries beyond the 1e-10 tolerance lie
on one side only yields none (the claim's clause that EVERY all-near-zero
vector yields 0 fails on the empty vector, which returns none — see the
counterexample); and every returned rate is `(1 + r_monthly)^periods − 1`
for some monthly rate. -/
theorem C9_irr_edge_cases :
    (∀ (l : List ℚ) (ppy : ℕ), l ≠ [] → (∀ cf ∈ l, |cf| < 1e-10) →
        calculateIrr l ppy = some 0)
    ∧ (∀ (l : List ℚ) (ppy : ℕ),
        (((∃ cf ∈ l, 1e-10 < cf) ∧ ∀ cf ∈ l, ¬(cf < -1e-10)) ∨
         ((∃ cf ∈ l, cf < -1e-10) ∧ ∀ cf ∈ l, ¬(1e-10 < cf))) →
        calculateIrr l ppy = none)
    ∧ (∀ (l : List ℚ) (ppy : ℕ) (r : ℚ), calculateIrr l ppy = some r →
        ∃ m, r = (1 + m) ^ ppy - 1) := by
  refine ⟨fun l ppy hne hall => ?_, fun l ppy hcase => ?_, fun l ppy r h => ?_⟩
  · rw [calculateIrr, if_neg (by simpa using hne), if_pos (by simpa using hall)]
  · have hne : ¬l.isEmpty := by
      rcases hcase with ⟨⟨cf, hcf, _⟩, _⟩ | ⟨⟨cf, hcf, _⟩, _⟩ <;>
        simp [List.isEmpty_iff] <;> intro h <;> subst h <;> simp at hcf
    rcases hcase with ⟨⟨cf, hcf, hbig⟩, hnone⟩ | ⟨⟨cf, hcf, hbig⟩, hnone⟩
    · have hnotall : ¬l.all (fun cf => |cf| < 1e-10) := by
        simp only [List.all_eq_true, decide_eq_true_eq, not_forall]
        exact ⟨cf, hcf, by rw [abs_of_pos (by linarith [hbig])]; push_neg; linarith⟩
      rw [calculateIrr, if_neg hne, if_neg hnotall, if_pos]
      right
      simp only [List.any_eq_true, decide_eq_true_eq, not_exists]
      push_neg
      intro x hx
      exact not_lt.mp (fun hlt => hnone x hx hlt)
    · have hnotall : ¬l.all (fun cf => |cf| < 1e-10) := by
        simp only [List.all_eq_true, decide_eq_true_eq, not_forall]
        refine ⟨cf, hcf, ?_⟩
        rw [abs_of_neg (by linarith [hbig])]
        push_neg
        linarith
      rw [calculateIrr, if_neg hne, if_neg hnotall, if_pos]
      left
      simp only [List.any_eq_true, decide_eq_true_eq, not_exists]
      push_neg
      intro x hx
      exact not_lt.mp (fun hlt => hnone x hx hlt)
  · simp only [calculateIrr] at h
    split_ifs at h
    · exact ⟨0, by simpa using (Option.some_inj.mp h).symm⟩
    · exact newtonLoop_some l ppy 1000 _ r h

/-- Witness for C9: the singleton zero vector returns IRR 0. -/
theorem C9_witness : calculateIrr [0] 12 = some 0 :=
  C9_irr_edge_cases.1 [0] 12 (by simp) (by norm_num)

/-- Counterexample for C9 as stated: every entry of the empty vector is
within 1e-10 of zero, yet `calculate_irr` returns none, not 0 (the source
checks emptiness before the all-near-zero test). -/
theorem C9_counterexample :
    (∀ cf ∈ ([] : List ℚ), |cf| < 1e-10) ∧ calculateIrr [] 12 = none
      ∧ calculateIrr [] 12 ≠ some 0 := by
  refine ⟨by simp, rfl, by decide⟩

/-- Timing fields of the state after `advance_month` from the initial
state: projection month 1 and the policy year of month 1. -/
theorem advanceMonth_first (p : Policy) :
    ((ProjectionState.fromPolicy p).advanceMonth p).projectionMonth = 1
    ∧ ((ProjectionState.fromPolicy p).advanceMonth p).policyYear = p.policyYear 1
    ∧ ((ProjectionState.fromPolicy p).advanceMonth p).bopAv = p.startingAv :=
  ⟨rfl, rfl, rfl⟩

/-- The payout lock leaves every field except the locked rate unchanged. -/
theorem lockPayout_fields (A : Assumptions) (st : ProjectionState) :
    (lockPayout A st).projectionMonth = st.projectionMonth
    ∧ (lockPayout A st).policyYear = st.policyYear
    ∧ (lockPayout A st).monthInPolicyYear = st.monthInPolicyYear
    ∧ (lockPayout A st).attainedAge = st.attainedAge
    ∧ (lockPayout A st).bopAv = st.bopAv
    ∧ (lockPayout A st).incomeActivated = st.incomeActivated :=
  ⟨rfl, rfl, rfl, rfl, rfl, rfl⟩

/-- The month's row carries the state's projection month. -/
theorem calculateMonth_projectionMonth (A : Assumptions) (cfg : ProjectionConfig)
    (p : Policy) (st : ProjectionState) :
    (calculateMonth A cfg p st).1.projectionMonth = st.projectionMonth := rfl

/-- The month's premium is the initial premium exactly in projection
month 1. -/
theorem calculateMonth_premium (A : Assumptions) (cfg : ProjectionConfig)
    (p : Policy) (st : ProjectionState) :
    (calculateMonth A cfg p st).1.premium
      = if st.projectionMonth = 1 then p.initialPremium else 0 := rfl

/-- The month's FPW percentage is the pwd-model lookup. -/
theorem calculateMonth_fpwPct (A : Assumptions) (cfg : ProjectionConfig)
    (p : Policy) (st : ProjectionState) :
    (calculateMonth A cfg p st).1.fpwPct
      = A.pwd.getFpwPct st.policyYear st.attainedAge p.qualStatus := rfl

/-- The month's non-systematic PWD rate is the pwd-model lookup. -/
theorem calculateMonth_pwdRate (A : Assumptions) (cfg : ProjectionConfig)
    (p : Policy) (st : ProjectionState) :
    (calculateMonth A cfg p st).1.nonSystematicPwdRate
      = A.pwd.monthlyPwdRateAdjusted st.policyYear st.monthInPolicyYear
          st.attainedAge p.qualStatus st.incomeActivated := rfl

/-- The month's final lapse rate, as the source computes it: 0 on
exhausted AV, override with month-1 zero, else the skewed model rate. -/
theorem calculateMonth_finalLapseRate (A : Assumptions) (cfg : ProjectionConfig)
    (p : Policy) (st : ProjectionState) :
    (calculateMonth A cfg p st).1.finalLapseRate
      = if st.bopAv ≤ 0 then 0
        else
          match cfg.fixedLapseRate with
          | some annualRate =>
              if st.projectionMonth = 1 then 0
              else 1 - (1 - annualRate) ^ ((1 : ℝ) / 12)
          | none =>
              A.lapse.monthlyLapseRateWithSkew st.projectionMonth st.policyYear
                st.monthInPolicyYear st.incomeActivated st.priorItm p.scPeriod
                p.benefitBaseBucket := rfl

/-- The final lapse rate of any month with projection month 1 or
non-positive BOP AV is zero. -/
theorem finalLapseRate_zero (A : Assumptions) (cfg : ProjectionConfig)
    (p : Policy) (st : ProjectionState)
    (h : st.projectionMonth = 1 ∨ st.bopAv ≤ 0) :
    (calculateMonth A cfg p st).1.finalLapseRate = 0 := by
  rw [calculateMonth_finalLapseRate]
  by_cases hav : st.bopAv ≤ 0
  · rw [if_pos hav]
  · have hpm : st.projectionMonth = 1 := h.resolve_right hav
    rw [if_neg hav]
    cases cfg.fixedLapseRate with
    | some r => simp [hpm]
    | none => simp [LapseModel.monthlyLapseRateWithSkew, hpm]

/-- C8 (amended): the row of projection month 1 always has
`final_lapse_rate = 0` and `premium = initial_premium`; its
`fpw_pct` and `non_systematic_pwd_rate` are 0 whenever the cell starts in
policy year 1, i.e. `duration_months ≤ 11` (a cell pre-seasoned into a
later policy year gets the year-2+ values — see the counterexample); and
every month with BOP AV ≤ 0 has final lapse rate 0. -/
theorem C8_month_one_outputs (A : Assumptions) (cfg : ProjectionConfig)
    (p : Policy) (hn : 0 < cfg.projectionMonths) :
    (∃ row rest, projectPolicy A cfg p = row :: rest
      ∧ row.projectionMonth = 1
      ∧ row.finalLapseRate = 0
      ∧ row.premium = p.initialPremium
      ∧ (p.durationMonths ≤ 11 → row.fpwPct = 0 ∧ row.nonSystematicPwdRate = 0))
    ∧ (∀ st, st.bopAv ≤ 0 → (calculateMonth A cfg p st).1.finalLapseRate = 0) := by
  constructor
  · obtain ⟨m, hm⟩ : ∃ m, cfg.projectionMonths = m + 1 :=
      ⟨cfg.projectionMonths - 1, by omega⟩
    rw [projectPolicy, hm, projectLoop]
    have hpm1 : (lockPayout A ((ProjectionState.fromPolicy p).advanceMonth p)).projectionMonth
        = 1 := by
      rw [(lockPayout_fields A _).1, (advanceMonth_first p).1]
    have hpy1 : p.durationMonths ≤ 11 →
        (lockPayout A ((ProjectionState.fromPolicy p).advanceMonth p)).policyYear = 1 := by
      intro hdur
      rw [(lockPayout_fields A _).2.1, (advanceMonth_first p).2.1, Policy.policyYear]
      omega
    refine ⟨_, _, rfl, ?_, ?_, ?_, fun hdur => ⟨?_, ?_⟩⟩
    · rw [calculateMonth_projectionMonth, hpm1]
    · exact finalLapseRate_zero A cfg p _ (Or.inl hpm1)
    · rw [calculateMonth_premium, if_pos hpm1]
    · rw [calculateMonth_fpwPct, hpy1 hdur, PwdAssumptions.getFpwPct.eq_def, if_pos rfl]
    · rw [calculateMonth_pwdRate, hpy1 hdur, PwdAssumptions.monthlyPwdRateAdjusted,
        if_pos rfl]
  · exact fun st h => finalLapseRate_zero A cfg p st (Or.inr h)

/-- Witness for C8 at the concrete month-1 cell of the test policy. -/
theorem C8_witness :
    (∃ row rest, projectPolicy A0 cfg0 testPolicy = row :: rest
      ∧ row.projectionMonth = 1
      ∧ row.finalLapseRate = 0
      ∧ row.premium = testPolicy.initialPremium
      ∧ (testPolicy.durationMonths ≤ 11 →
          row.fpwPct = 0 ∧ row.nonSystematicPwdRate = 0)) := by
  exact (C8_month_one_outputs A0 cfg0 testPolicy (by norm_num [cfg0])).1

/-- Counterexample for C8 as stated: a cell pre-seasoned with 12 duration
months starts projection month 1 in policy year 2, and its month-1 row
carries `fpw_pct = 1/20 ≠ 0` (the base free-withdrawal percentage), not
0. -/
theorem C8_counterexample :
    seasonedPolicy.durationMonths = 12
    ∧ ∃ row rest, projectPolicy A0 cfg0 seasonedPolicy = row :: rest
        ∧ row.projectionMonth = 1 ∧ row.fpwPct = 1 / 20 ∧ row.fpwPct ≠ 0 := by
  refine ⟨rfl, ?_⟩
  have hpy : (lockPayout A0 ((ProjectionState.fromPolicy seasonedPolicy).advanceMonth
      seasonedPolicy)).policyYear = 2 := rfl
  have hfpw : A0.pwd.getFpwPct 2
      (lockPayout A0 ((ProjectionState.fromPolicy seasonedPolicy).advanceMonth
        seasonedPolicy)).attainedAge seasonedPolicy.qualStatus = 1 / 20 := by
    rw [PwdAssumptions.getFpwPct.eq_def, if_neg (by norm_num)]
    show A0.pwd.freePct = (1 / 20 : ℝ)
    norm_num [A0, defaultPricing, defaultPwd]
  rw [projectPolicy, show cfg0.projectionMonths = 11 + 1 from rfl, projectLoop]
  refine ⟨_, _, rfl, ?_, ?_, ?_⟩
  · rw [calculateMonth_projectionMonth, (lockPayout_fields A0 _).1,
      (advanceMonth_first seasonedPolicy).1]
  · rw [calculateMonth_fpwPct, hpy, hfpw]
  · rw [calculateMonth_fpwPct, hpy, hfpw]
    norm_num

/-- Lower-bound a real 12th root by a rational whose 12th power is below
the radicand. -/
theorem le_twelfthRoot {a b : ℝ} (hb : 0 ≤ b) (h : b ^ (12 : ℕ) ≤ a) :
    b ≤ a ^ ((1 : ℝ) / 12) := by
  have hb12 : b = (b ^ (12 : ℕ)) ^ ((1 : ℝ) / 12) := by
    rw [← Real.rpow_natCast b 12, ← Real.rpow_mul hb]
    norm_num
  rw [hb12]
  exact Real.rpow_le_rpow (by positivity) h (by norm_num)

/-- Upper-bound a real 12th root by a rational whose 12th power is above
the radicand. -/
theorem twelfthRoot_le {a b : ℝ} (ha : 0 ≤ a) (hb : 0 ≤ b) (h : a ≤ b ^ (12 : ℕ)) :
    a ^ ((1 : ℝ) / 12) ≤ b := by
  have hb12 : b = (b ^ (12 : ℕ)) ^ ((1 : ℝ) / 12) := by
    rw [← Real.rpow_natCast b 12, ← Real.rpow_mul hb]
    norm_num
  calc a ^ ((1 : ℝ) / 12) ≤ (b ^ (12 : ℕ)) ^ ((1 : ℝ) / 12) :=
        Real.rpow_le_rpow ha h (by norm_num)
  _ = b := hb12.symm

/-- Lower-bound a real 6th root. -/
theorem le_sixthRoot {a b : ℝ} (hb : 0 ≤ b) (h : b ^ (6 : ℕ) ≤ a) :
    b ≤ a ^ ((1 : ℝ) / 6) := by
  have hb6 : b = (b ^ (6 : ℕ)) ^ ((1 : ℝ) / 6) := by
    rw [← Real.rpow_natCast b 6, ← Real.rpow_mul hb]
    norm_num
  rw [hb6]
  exact Real.rpow_le_rpow (by positivity) h (by norm_num)

/-- Upper-bound a real 6th root. -/
theorem sixthRoot_le {a b : ℝ} (ha : 0 ≤ a) (hb : 0 ≤ b) (h : a ≤ b ^ (6 : ℕ)) :
    a ^ ((1 : ℝ) / 6) ≤ b := by
  have hb6 : b = (b ^ (6 : ℕ)) ^ ((1 : ℝ) / 6) := by
    rw [← Real.rpow_natCast b 6, ← Real.rpow_mul hb]
    norm_num
  calc a ^ ((1 : ℝ) / 6) ≤ (b ^ (6 : ℕ)) ^ ((1 : ℝ) / 6) :=
        Real.rpow_le_rpow ha h (by norm_num)
  _ = b := hb6.symm

set_option maxRecDepth 4000 in
/-- The 121-entry length of the embedded IAM base-rate table. -/
theorem iam_baseRates_length : iamTable.baseRates.length = 121 := rfl

set_option maxRecDepth 8000 in
/-- The IAM table monthly rate for a 77-year-old male at projection month 1
in closed form: base 0.026155, age factor 0.6 + 0.4·17/30, improvement
0.015 over 13 + 1/12 years, standard monthly conversion. -/
theorem iam77_month1_form :
    iamTable.monthlyRate 77 .male 1
      = 1 - (1 - 0.026155 * (0.6 + 0.4 * ((17 : ℕ) : ℝ) / 30)
          * (1 - 0.015) ^ (((13 : ℕ) : ℝ) + ((1 : ℕ) : ℝ) / 12)) ^ ((1 : ℝ) / 12) := rfl

/-- Monthly rate of the 77-year-old male at month 1 lies in
[0.001485, 0.001495]. -/
theorem iam77_month1_bounds :
    (0.001485 : ℝ) ≤ iamTable.monthlyRate 77 .male 1
    ∧ iamTable.monthlyRate 77 .male 1 ≤ 0.001495 := by
  rw [iam77_month1_form]
  have h2 : (1 : ℝ) - 0.015 = 197 / 200 := by norm_num
  have h3 : (((13 : ℕ) : ℝ) + ((1 : ℕ) : ℝ) / 12) = ((157 : ℕ) : ℝ) * ((1 : ℝ) / 12) := by
    push_cast; norm_num
  have hbest : (0.026155 : ℝ) * (0.6 + 0.4 * ((17 : ℕ) : ℝ) / 30) = 162161 / 7500000 := by
    push_cast; norm_num
  rw [h2, h3, hbest, Real.rpow_mul (by norm_num), Real.rpow_natCast]
  have hu_lo : (0.8202 : ℝ) ≤ (((197 : ℝ) / 200) ^ (157 : ℕ)) ^ ((1 : ℝ) / 12) :=
    le_twelfthRoot (by norm_num) (by norm_num)
  have hu_hi : (((197 : ℝ) / 200) ^ (157 : ℕ)) ^ ((1 : ℝ) / 12) ≤ (0.8210 : ℝ) :=
    twelfthRoot_le (by positivity) (by norm_num) (by norm_num)
  have hia_lo : (162161 : ℝ) / 7500000 * 0.8202
      ≤ 162161 / 7500000 * ((((197 : ℝ) / 200) ^ (157 : ℕ)) ^ ((1 : ℝ) / 12)) :=
    mul_le_mul_of_nonneg_left hu_lo (by norm_num)
  have hia_hi : (162161 : ℝ) / 7500000 * ((((197 : ℝ) / 200) ^ (157 : ℕ)) ^ ((1 : ℝ) / 12))
      ≤ 162161 / 7500000 * 0.8210 :=
    mul_le_mul_of_nonneg_left hu_hi (by norm_num)
  have hc1 : (0.998505 : ℝ) ^ (12 : ℕ) ≤ 1 - 162161 / 7500000 * 0.8210 := by norm_num
  have hc2 : (1 : ℝ) - 162161 / 7500000 * 0.8202 ≤ (0.998515 : ℝ) ^ (12 : ℕ) := by norm_num
  have hrt_lo : (0.998505 : ℝ)
      ≤ (1 - 162161 / 7500000 * ((((197 : ℝ) / 200) ^ (157 : ℕ)) ^ ((1 : ℝ) / 12)))
        ^ ((1 : ℝ) / 12) :=
    le_twelfthRoot (by norm_num) (by linarith)
  have hrt_hi : (1 - 162161 / 7500000 * ((((197 : ℝ) / 200) ^ (157 : ℕ)) ^ ((1 : ℝ) / 12)))
        ^ ((1 : ℝ) / 12) ≤ (0.998515 : ℝ) :=
    twelfthRoot_le (by nlinarith) (by norm_num) (by linarith)
  constructor <;> linarith

set_option maxRecDepth 8000 in
/-- The IAM table monthly rate for a 77-year-old male at projection month 2
in closed form. -/
theorem iam77_month2_form :
    iamTable.monthlyRate 77 .male 2
      = 1 - (1 - 0.026155 * (0.6 + 0.4 * ((17 : ℕ) : ℝ) / 30)
          * (1 - 0.015) ^ (((13 : ℕ) : ℝ) + ((2 : ℕ) : ℝ) / 12)) ^ ((1 : ℝ) / 12) := rfl

/-- Monthly rate of the 77-year-old male at month 2 lies in
[0.001482, 0.001493]. -/
theorem iam77_month2_bounds :
    (0.001482 : ℝ) ≤ iamTable.monthlyRate 77 .male 2
    ∧ iamTable.monthlyRate 77 .male 2 ≤ 0.001493 := by
  rw [iam77_month2_form]
  have h2 : (1 : ℝ) - 0.015 = 197 / 200 := by norm_num
  have h3 : (((13 : ℕ) : ℝ) + ((2 : ℕ) : ℝ) / 12) = ((79 : ℕ) : ℝ) * ((1 : ℝ) / 6) := by
    push_cast; norm_num
  have hbest : (0.026155 : ℝ) * (0.6 + 0.4 * ((17 : ℕ) : ℝ) / 30) = 162161 / 7500000 := by
    push_cast; norm_num
  rw [h2, h3, hbest, Real.rpow_mul (by norm_num), Real.rpow_natCast]
  have hu_lo : (0.8190 : ℝ) ≤ (((197 : ℝ) / 200) ^ (79 : ℕ)) ^ ((1 : ℝ) / 6) :=
    le_sixthRoot (by norm_num) (by norm_num)
  have hu_hi : (((197 : ℝ) / 200) ^ (79 : ℕ)) ^ ((1 : ℝ) / 6) ≤ (0.8201 : ℝ) :=
    sixthRoot_le (by positivity) (by norm_num) (by norm_num)
  have hia_lo : (162161 : ℝ) / 7500000 * 0.8190
      ≤ 162161 / 7500000 * ((((197 : ℝ) / 200) ^ (79 : ℕ)) ^ ((1 : ℝ) / 6)) :=
    mul_le_mul_of_nonneg_left hu_lo (by norm_num)
  have hia_hi : (162161 : ℝ) / 7500000 * ((((197 : ℝ) / 200) ^ (79 : ℕ)) ^ ((1 : ℝ) / 6))
      ≤ 162161 / 7500000 * 0.8201 :=
    mul_le_mul_of_nonneg_left hu_hi (by norm_num)
  have hc1 : (0.998507 : ℝ) ^ (12 : ℕ) ≤ 1 - 162161 / 7500000 * 0.8201 := by norm_num
  have hc2 : (1 : ℝ) - 162161 / 7500000 * 0.8190 ≤ (0.998518 : ℝ) ^ (12 : ℕ) := by norm_num
  have hrt_lo : (0.998507 : ℝ)
      ≤ (1 - 162161 / 7500000 * ((((197 : ℝ) / 200) ^ (79 : ℕ)) ^ ((1 : ℝ) / 6)))
        ^ ((1 : ℝ) / 12) :=
    le_twelfthRoot (by norm_num) (by linarith)
  have hrt_hi : (1 - 162161 / 7500000 * ((((197 : ℝ) / 200) ^ (79 : ℕ)) ^ ((1 : ℝ) / 6)))
        ^ ((1 : ℝ) / 12) ≤ (0.998518 : ℝ) :=
    twelfthRoot_le (by nlinarith) (by norm_num) (by linarith)
  constructor <;> linarith

/-- C6: for every in-table age, the monthly mortality rate under the
Standard conversion equals
`1 − (1 − base(age,gender)·age_factor(age)·(1−imp(age,gender))^years)^(1/12)`
with `years = (projection_year − table_base_year − 1) + month/12`; for
every age past the table end it is 1/12; and on the IAM table the age-77
male rates at months 1 and 2 are within 1e-5 of 0.0014907 and 0.0014888. -/
theorem C6_mortality_monthly_rate :
    (∀ (t : MortalityTable) (age : ℕ) (g : Gender) (pm : ℕ),
      t.conversionMethod = .standard → age < t.baseRates.length →
      t.monthlyRate age g pm
        = 1 - (1 - g.pick (t.baseRates.getD age (0, 0)) * t.ageFactors.getD age 1
            * (1 - t.improvementRate age g)
              ^ (((t.projectionYear - t.tableBaseYear - 1 : ℕ) : ℝ) + (pm : ℝ) / 12))
          ^ ((1 : ℝ) / 12))
    ∧ (∀ (t : MortalityTable) (age : ℕ) (g : Gender) (pm : ℕ),
        t.baseRates.length ≤ age → t.monthlyRate age g pm = 1 / 12)
    ∧ |iamTable.monthlyRate 77 .male 1 - 0.0014907| < 1e-5
    ∧ |iamTable.monthlyRate 77 .male 2 - 0.0014888| < 1e-5 := by
  refine ⟨fun t age g pm hconv hlt => ?_, fun t age g pm hge => ?_, ?_, ?_⟩
  · rw [MortalityTable.monthlyRate.eq_def, if_neg (not_le.mpr hlt), hconv]
  · rw [MortalityTable.monthlyRate.eq_def, if_pos hge]
  · have h := iam77_month1_bounds
    rw [abs_lt]
    constructor <;> [linarith [h.1]; linarith [h.2]]
  · have h := iam77_month2_bounds
    rw [abs_lt]
    constructor <;> [linarith [h.1]; linarith [h.2]]

/-- Witness for C6: the IAM table itself, whose age 130 is past the
121-entry table end and yields exactly 1/12, and whose in-table age 77
satisfies the closed form at month 1. -/
theorem C6_witness :
    iamTable.monthlyRate 130 .male 1 = 1 / 12
    ∧ iamTable.monthlyRate 77 .male 1
      = 1 - (1 - Gender.pick .male (iamTable.baseRates.getD 77 (0, 0))
          * iamTable.ageFactors.getD 77 1
          * (1 - iamTable.improvementRate 77 .male)
            ^ (((iamTable.projectionYear - iamTable.tableBaseYear - 1 : ℕ) : ℝ)
               + ((1 : ℕ) : ℝ) / 12))
        ^ ((1 : ℝ) / 12) := by
  constructor
  · exact C6_mortality_monthly_rate.2.1 iamTable 130 .male 1
      (by rw [iam_baseRates_length]; norm_num)
  · exact C6_mortality_monthly_rate.1 iamTable 77 .male 1 rfl
      (by rw [iam_baseRates_length]; norm_num)

/-- A defaulted list lookup yields a list element or the default. -/
theorem getD_mem_or {α : Type} (l : List α) (n : ℕ) (d : α) :
    l.getD n d ∈ l ∨ l.getD n d = d := by
  induction l generalizing n with
  | nil => right; rfl
  | cons a t ih =>
      cases n with
      | zero => left; exact List.mem_cons_self a t
      | succ m =>
          rcases ih m with h | h
          · left; exact List.mem_cons_of_mem a h
          · right; exact h

/-- The last element, when present, belongs to the list. -/
theorem getLast?_mem_list {α : Type} {l : List α} {a : α}
    (h : l.getLast? = some a) : a ∈ l := by
  induction l with
  | nil => cases h
  | cons x t ih =>
      cases t with
      | nil =>
          simp only [List.getLast?_singleton, Option.some_inj] at h
          simp [h]
      | cons y u =>
          rw [List.getLast?_cons_cons] at h
          exact List.mem_cons_of_mem x (ih h)

/-- Monthly mortality rates from a valid table are rates in [0, 1]. -/
theorem monthlyRate_bounds (t : MortalityTable) (ht : MortValid t)
    (age : ℕ) (g : Gender) (pm : ℕ) :
    0 ≤ t.monthlyRate age g pm ∧ t.monthlyRate age g pm ≤ 1 := by
  rw [MortalityTable.monthlyRate.eq_def]
  split_ifs with h
  · norm_num
  · have hbase : 0 ≤ g.pick (t.baseRates.getD age (0, 0))
        ∧ g.pick (t.baseRates.getD age (0, 0)) ≤ 1 := by
      rcases getD_mem_or t.baseRates age (0, 0) with hm | he
      · have := ht.1 _ hm
        cases g <;> simp only [Gender.pick] <;> exact ⟨by tauto, by tauto⟩
      · rw [he]; cases g <;> simp [Gender.pick]
    have haf : 0 ≤ t.ageFactors.getD age 1 ∧ t.ageFactors.getD age 1 ≤ 1 := by
      rcases getD_mem_or t.ageFactors age 1 with hm | he
      · exact ht.2.1 _ hm
      · rw [he]; norm_num
    have himp : 0 ≤ t.improvementRate age g ∧ t.improvementRate age g ≤ 1 := by
      rw [MortalityTable.improvementRate]
      split_ifs
      · norm_num
      · rcases getD_mem_or t.improvementRates age (0, 0) with hm | he
        · have := ht.2.2 _ hm
          cases g <;> simp only [Gender.pick] <;> exact ⟨by tauto, by tauto⟩
        · rw [he]; cases g <;> simp [Gender.pick]
    have hyears : (0 : ℝ)
        ≤ ((t.projectionYear - t.tableBaseYear - 1 : ℕ) : ℝ) + (pm : ℝ) / 12 := by
      positivity
    have himpf : 0 ≤ (1 - t.improvementRate age g)
          ^ (((t.projectionYear - t.tableBaseYear - 1 : ℕ) : ℝ) + (pm : ℝ) / 12)
        ∧ (1 - t.improvementRate age g)
          ^ (((t.projectionYear - t.tableBaseYear - 1 : ℕ) : ℝ) + (pm : ℝ) / 12) ≤ 1 :=
      ⟨Real.rpow_nonneg (by linarith [himp.2]) _,
       Real.rpow_le_one (by linarith [himp.2]) (by linarith [himp.1]) hyears⟩
    have hia : 0 ≤ g.pick (t.baseRates.getD age (0, 0)) * t.ageFactors.getD age 1
        ∧ g.pick (t.baseRates.getD age (0, 0)) * t.ageFactors.getD age 1 ≤ 1 :=
      ⟨mul_nonneg hbase.1 haf.1, mul_le_one₀ hbase.2 haf.1 haf.2⟩
    cases hc : t.conversionMethod
    all_goals simp only
    · constructor
      · have : (1 - (g.pick (t.baseRates.getD age (0, 0)) * t.ageFactors.getD age 1)
            * ((1 - t.improvementRate age g)
              ^ (((t.projectionYear - t.tableBaseYear - 1 : ℕ) : ℝ) + (pm : ℝ) / 12)))
            ^ ((1 : ℝ) / 12) ≤ 1 :=
          Real.rpow_le_one
            (by nlinarith [mul_le_one₀ hia.2 himpf.1 himpf.2, mul_nonneg hia.1 himpf.1])
            (by nlinarith [mul_nonneg hia.1 himpf.1]) (by norm_num)
        linarith
      · have : (0 : ℝ) ≤ (1 - (g.pick (t.baseRates.getD age (0, 0))
            * t.ageFactors.getD age 1)
            * ((1 - t.improvementRate age g)
              ^ (((t.projectionYear - t.tableBaseYear - 1 : ℕ) : ℝ) + (pm : ℝ) / 12)))
            ^ ((1 : ℝ) / 12) :=
          Real.rpow_nonneg
            (by nlinarith [mul_le_one₀ hia.2 himpf.1 himpf.2]) _
        linarith
    · constructor
      · exact div_nonneg (mul_nonneg hia.1 himpf.1) (by norm_num)
      · have h1 : (g.pick (t.baseRates.getD age (0, 0)) * t.ageFactors.getD age 1)
            * ((1 - t.improvementRate age g)
              ^ (((t.projectionYear - t.tableBaseYear - 1 : ℕ) : ℝ) + (pm : ℝ) / 12)) ≤ 1 :=
          mul_le_one₀ hia.2 himpf.1 himpf.2
        linarith
    · constructor
      · exact mul_nonneg (div_nonneg (mul_nonneg hia.1 haf.1) (by norm_num)) himpf.1
      · have h1 : g.pick (t.baseRates.getD age (0, 0)) * t.ageFactors.getD age 1
            * t.ageFactors.getD age 1 ≤ 1 :=
          mul_le_one₀ hia.2 haf.1 haf.2
        have h2 : g.pick (t.baseRates.getD age (0, 0)) * t.ageFactors.getD age 1
            * t.ageFactors.getD age 1 / 12
            * ((1 - t.improvementRate age g)
              ^ (((t.projectionYear - t.tableBaseYear - 1 : ℕ) : ℝ) + (pm : ℝ) / 12)) ≤ 1 := by
          have h0 : (0 : ℝ) ≤ g.pick (t.baseRates.getD age (0, 0))
              * t.ageFactors.getD age 1 * t.ageFactors.getD age 1 / 12 :=
            div_nonneg (mul_nonneg (mul_nonneg hbase.1 haf.1) haf.1) (by norm_num)
          have : g.pick (t.baseRates.getD age (0, 0)) * t.ageFactors.getD age 1
              * t.ageFactors.getD age 1 / 12 ≤ 1 := by linarith
          exact mul_le_one₀ this himpf.1 himpf.2
        linarith [h2]

/-- Skews are nonnegative. -/
theorem getSkew_nonneg (m : LapseModel) (py mipy sc : ℕ) :
    0 ≤ m.getSkew py mipy sc := by
  rw [LapseModel.getSkew]
  split_ifs <;> norm_num

/-- Annual lapse probabilities are probabilities. -/
theorem annualLapseProb_bounds (m : LapseModel) (py : ℕ) (act : Bool) (itm : ℝ)
    (bucket : BenefitBaseBucket) (sc : ℕ) :
    0 ≤ m.annualLapseProbWithBucket py act itm bucket sc
    ∧ m.annualLapseProbWithBucket py act itm bucket sc ≤ 1 := by
  rw [LapseModel.annualLapseProbWithBucket]
  exact ⟨le_min (Real.exp_pos _).le zero_le_one, min_le_right _ _⟩

/-- Skewed monthly lapse rates are rates in [0, 1]. -/
theorem monthlyLapse_bounds (m : LapseModel) (pm py mipy : ℕ) (act : Bool)
    (itm : ℝ) (sc : ℕ) (bucket : BenefitBaseBucket) :
    0 ≤ m.monthlyLapseRateWithSkew pm py mipy act itm sc bucket
    ∧ m.monthlyLapseRateWithSkew pm py mipy act itm sc bucket ≤ 1 := by
  simp only [LapseModel.monthlyLapseRateWithSkew]
  split_ifs
  · norm_num
  · norm_num
  · have ha := annualLapseProb_bounds m py act itm bucket sc
    have hs := getSkew_nonneg m py mipy sc
    have h1 : (1 - m.annualLapseProbWithBucket py act itm bucket sc)
        ^ (m.getSkew py mipy sc) ≤ 1 :=
      Real.rpow_le_one (by linarith [ha.2]) (by linarith [ha.1]) hs
    have h2 : 0 ≤ (1 - m.annualLapseProbWithBucket py act itm bucket sc)
        ^ (m.getSkew py mipy sc) :=
      Real.rpow_nonneg (by linarith [ha.2]) _
    constructor <;> linarith

/-- RMD rates from a valid table are rates in [0, 1]. -/
theorem rmdRate_bounds (t : RmdTable) (ht : ∀ pr ∈ t.rates, 0 ≤ pr.2 ∧ pr.2 ≤ 1)
    (age : ℕ) : 0 ≤ t.getRate age ∧ t.getRate age ≤ 1 := by
  rw [RmdTable.getRate]
  split_ifs
  · norm_num
  · cases hf : t.rates.find? (fun p => p.1 = age) with
    | some pr =>
        exact ht pr (List.mem_of_find?_eq_some hf)
    | none =>
        cases hl : t.rates.getLast? with
        | some pr =>
            exact ht pr (getLast?_mem_list hl)
        | none =>
            show (0 : ℝ) ≤ 0.2 ∧ (0.2 : ℝ) ≤ 1
            norm_num

/-- Utilization rates from a valid table are rates in [0, 1]. -/
theorem utilRate_bounds (u : FreeWithdrawalUtilization)
    (hu : ∀ r ∈ u.rates, 0 ≤ r ∧ r ≤ 1) (py : ℕ) :
    0 ≤ u.getRate py ∧ u.getRate py ≤ 1 := by
  rw [FreeWithdrawalUtilization.getRate]
  cases hg : u.rates.get? (py - 1) with
  | some v =>
      exact hu v (List.get?_mem hg)
  | none =>
      rw [List.getLastD_eq_getLast?]
      cases hl : u.rates.getLast? with
      | some v => exact hu v (getLast?_mem_list hl)
      | none =>
          show (0 : ℝ) ≤ 0.4 ∧ (0.4 : ℝ) ≤ 1
          norm_num

/-- FPW percentages from a valid PWD table are rates in [0, 1]. -/
theorem fpwPct_bounds (w : PwdAssumptions) (hw : PwdValid w) (py age : ℕ)
    (q : QualStatus) : 0 ≤ w.getFpwPct py age q ∧ w.getFpwPct py age q ≤ 1 := by
  rw [PwdAssumptions.getFpwPct.eq_def]
  split_ifs
  · norm_num
  · have hr := rmdRate_bounds w.rmd hw.2.1 age
    cases q
    · exact ⟨le_max_of_le_left hw.1.1, max_le hw.1.2 hr.2⟩
    · exact hw.1

/-- Adjusted monthly PWD rates from a valid table are rates in [0, 1]. -/
theorem monthlyPwd_bounds (w : PwdAssumptions) (hw : PwdValid w)
    (py mipy age : ℕ) (q : QualStatus) (act : Bool) :
    0 ≤ w.monthlyPwdRateAdjusted py mipy age q act
    ∧ w.monthlyPwdRateAdjusted py mipy age q act ≤ 1 := by
  rw [PwdAssumptions.monthlyPwdRateAdjusted]
  split_ifs
  · norm_num
  · have hann : 0 ≤ w.annualPwdRate py age q act ∧ w.annualPwdRate py age q act ≤ 1 := by
      rw [PwdAssumptions.annualPwdRate]
      split_ifs
      · norm_num
      · have h1 := fpwPct_bounds w hw py age q
        have h2 := utilRate_bounds w.freeUtilization hw.2.2 py
        exact ⟨mul_nonneg h1.1 h2.1, mul_le_one₀ h1.2 h2.1 h2.2⟩
    have h1 : (1 - w.annualPwdRate py age q act) ^ ((1 : ℝ) / 12) ≤ 1 :=
      Real.rpow_le_one (by linarith [hann.2]) (by linarith [hann.1]) (by norm_num)
    have h2 : 0 ≤ (1 - w.annualPwdRate py age q act) ^ ((1 : ℝ) / 12) :=
      Real.rpow_nonneg (by linarith [hann.2]) _
    constructor <;> linarith

/-- Payout factors from a valid band table are nonnegative. -/
theorem payoutFactor_nonneg (pf : PayoutFactors) (hpf : PayoutValid pf) (age : ℕ) :
    0 ≤ pf.getSingleLife age := by
  rw [PayoutFactors.getSingleLife]
  cases hf : pf.singleLife.find? (fun b => decide (b.1.1 ≤ age ∧ age ≤ b.1.2)) with
  | some b => exact hpf b (List.mem_of_find?_eq_some hf)
  | none => show (0 : ℝ) ≤ 0.090; norm_num

/-- The month's row is the cashflow pipeline applied to the seeded row. -/
theorem calculateMonth_row (A : Assumptions) (cfg : ProjectionConfig)
    (p : Policy) (st : ProjectionState) :
    (calculateMonth A cfg p st).1
      = calculateCashflows A cfg p st
          (applyDecrements st (calculateDecrements A cfg p st (seedRow p st))) := rfl

/-- The month's final mortality is the mortality-model lookup. -/
theorem calculateMonth_finalMortality (A : Assumptions) (cfg : ProjectionConfig)
    (p : Policy) (st : ProjectionState) :
    (calculateMonth A cfg p st).1.finalMortality
      = A.mortality.monthlyRate st.attainedAge p.gender st.projectionMonth := rfl

/-- The month's systematic withdrawal in closed form. -/
theorem calculateMonth_sysWd (A : Assumptions) (cfg : ProjectionConfig)
    (p : Policy) (st : ProjectionState) :
    (calculateMonth A cfg p st).1.systematicWithdrawal = systematicWdOf A st := rfl

/-- The decrement stage writes the closed-form systematic withdrawal. -/
theorem calculateDecrements_sysWd (A : Assumptions) (cfg : ProjectionConfig)
    (p : Policy) (st : ProjectionState) (row : CashflowRow) :
    (calculateDecrements A cfg p st row).systematicWithdrawal
      = systematicWdOf A st := rfl

/-- Applying decrements leaves the systematic withdrawal unchanged. -/
theorem applyDecrements_sysWd (st : ProjectionState) (row : CashflowRow) :
    (applyDecrements st row).systematicWithdrawal = row.systematicWithdrawal := rfl

/-- The end-month state's EOP AV is the row's EOP AV. -/
theorem calculateMonth_st_eopAv (A : Assumptions) (cfg : ProjectionConfig)
    (p : Policy) (st : ProjectionState) :
    (calculateMonth A cfg p st).2.eopAv = (calculateMonth A cfg p st).1.eopAv := rfl

/-- The month leaves the locked payout rate unchanged. -/
theorem calculateMonth_st_locked (A : Assumptions) (cfg : ProjectionConfig)
    (p : Policy) (st : ProjectionState) :
    (calculateMonth A cfg p st).2.lockedPayoutRate = st.lockedPayoutRate := rfl

/-- The end-month benefit base is the benefit-base update of the row. -/
theorem calculateMonth_bb (A : Assumptions) (cfg : ProjectionConfig)
    (p : Policy) (st : ProjectionState) :
    (calculateMonth A cfg p st).2.bopBenefitBase
      = (updateBenefitBase A p st (calculateMonth A cfg p st).1).bopBenefitBase := rfl

/-- Advancing a month moves EOP AV to BOP AV. -/
theorem advanceMonth_bopAv (st : ProjectionState) (p : Policy) :
    (st.advanceMonth p).bopAv = st.eopAv := rfl

/-- Advancing a month leaves the benefit base unchanged. -/
theorem advanceMonth_bb (st : ProjectionState) (p : Policy) :
    (st.advanceMonth p).bopBenefitBase = st.bopBenefitBase := rfl

/-- Advancing a month leaves the locked payout rate unchanged. -/
theorem advanceMonth_locked (st : ProjectionState) (p : Policy) :
    (st.advanceMonth p).lockedPayoutRate = st.lockedPayoutRate := rfl

/-- The payout lock leaves the benefit base unchanged. -/
theorem lockPayout_bb (A : Assumptions) (st : ProjectionState) :
    (lockPayout A st).bopBenefitBase = st.bopBenefitBase := rfl

/-- The locked rate after the payout lock, in closed form. -/
theorem lockPayout_locked (A : Assumptions) (st : ProjectionState) :
    (lockPayout A st).lockedPayoutRate
      = if st.incomeActivated ∧ st.lockedPayoutRate = none then
          some (A.product.glwb.payoutFactors.getSingleLife st.attainedAge)
        else st.lockedPayoutRate := rfl

/-- The systematic withdrawal is nonnegative for invariant states under
valid payout factors. -/
theorem systematicWdOf_nonneg (A : Assumptions) (st : ProjectionState)
    (hpf : PayoutValid A.product.glwb.payoutFactors) (h : Inv st) :
    0 ≤ systematicWdOf A st := by
  rw [systematicWdOf]
  split_ifs
  · have hpr : 0 ≤ (match st.lockedPayoutRate with
        | some r => r
        | none => A.product.glwb.payoutFactors.getSingleLife st.attainedAge) := by
      cases hl : st.lockedPayoutRate with
      | some r => exact h.2 r hl
      | none => exact payoutFactor_nonneg _ hpf _
    exact div_nonneg (mul_nonneg h.1 hpr) (by norm_num)
  · exact le_refl 0

/-- Every EOP AV the cashflow stage writes is nonnegative. -/
theorem calculateCashflows_eop_nonneg (A : Assumptions) (cfg : ProjectionConfig)
    (p : Policy) (st : ProjectionState) (row : CashflowRow) :
    0 ≤ (calculateCashflows A cfg p st row).eopAv := by
  simp only [calculateCashflows]
  exact le_max_right _ _

/-- On an exhausted account the cashflow stage writes EOP AV zero, as long
as the systematic withdrawal it is asked to take is nonnegative. -/
theorem calculateCashflows_eop_zero (A : Assumptions) (cfg : ProjectionConfig)
    (p : Policy) (st : ProjectionState) (row : CashflowRow)
    (hav : st.bopAv = 0) (hsw : 0 ≤ row.systematicWithdrawal) :
    (calculateCashflows A cfg p st row).eopAv = 0 := by
  simp only [calculateCashflows, hav, lt_self_iff_false, if_false]
  have h0 : max ((0 : ℝ) - row.systematicWithdrawal) 0 = 0 :=
    max_eq_right (by linarith)
  rw [h0]
  simp only [zero_mul, mul_zero, zero_div, zero_add, add_zero, sub_zero,
    sub_self, zero_sub]
  split_ifs <;>
    · simp only [zero_mul, mul_zero, zero_div, zero_add, add_zero, sub_zero,
        sub_self, zero_sub]
      exact max_eq_right (by linarith)

/-- The month's final lapse rate is a rate in [0, 1] whenever any
fixed-lapse override is a rate in [0, 1]. -/
theorem calculateMonth_finalLapse_bounds (A : Assumptions) (cfg : ProjectionConfig)
    (p : Policy) (st : ProjectionState)
    (hfix : ∀ r, cfg.fixedLapseRate = some r → 0 ≤ r ∧ r ≤ 1) :
    0 ≤ (calculateMonth A cfg p st).1.finalLapseRate
    ∧ (calculateMonth A cfg p st).1.finalLapseRate ≤ 1 := by
  rw [calculateMonth_finalLapseRate]
  by_cases hav : st.bopAv ≤ 0
  · rw [if_pos hav]; norm_num
  · rw [if_neg hav]
    cases hc : cfg.fixedLapseRate with
    | some r =>
        have hr := hfix r hc
        show 0 ≤ (if st.projectionMonth = 1 then (0 : ℝ)
            else 1 - (1 - r) ^ ((1 : ℝ) / 12))
          ∧ (if st.projectionMonth = 1 then (0 : ℝ)
            else 1 - (1 - r) ^ ((1 : ℝ) / 12)) ≤ 1
        split_ifs
        · norm_num
        · have h1 : (1 - r) ^ ((1 : ℝ) / 12) ≤ 1 :=
            Real.rpow_le_one (by linarith [hr.2]) (by linarith [hr.1]) (by norm_num)
          have h2 : 0 ≤ (1 - r) ^ ((1 : ℝ) / 12) :=
            Real.rpow_nonneg (by linarith [hr.2]) _
          constructor <;> linarith
    | none => exact monthlyLapse_bounds _ _ _ _ _ _ _ _

/-- The loop-body invariant step: advancing a month, locking the payout
rate and computing the month preserve the state invariant for a valid
setup. -/
theorem step_preserves_inv (A : Assumptions) (cfg : ProjectionConfig)
    (p : Policy) (st : ProjectionState) (hv : ValidSetup A cfg p) (h : Inv st) :
    Inv (calculateMonth A cfg p (lockPayout A (st.advanceMonth p))).2 := by
  obtain ⟨hm, hw, hpf, hbon, hrup, hfix, -⟩ := hv
  set st1 := lockPayout A (st.advanceMonth p) with hst1
  have hInv1 : Inv st1 := by
    constructor
    · rw [hst1, lockPayout_bb, advanceMonth_bb]
      exact h.1
    · intro r hr
      rw [hst1, lockPayout_locked] at hr
      by_cases hc : (st.advanceMonth p).incomeActivated
          ∧ (st.advanceMonth p).lockedPayoutRate = none
      · rw [if_pos hc] at hr
        cases hr
        exact payoutFactor_nonneg _ hpf _
      · rw [if_neg hc, advanceMonth_locked] at hr
        exact h.2 r hr
  constructor
  · rw [calculateMonth_bb, updateBenefitBase_eq]
    have hmq := monthlyRate_bounds A.mortality hm st1.attainedAge p.gender
      st1.projectionMonth
    have hlq := calculateMonth_finalLapse_bounds A cfg p st1 hfix
    have hwq := monthlyPwd_bounds A.pwd hw st1.policyYear st1.monthInPolicyYear
      st1.attainedAge p.qualStatus st1.incomeActivated
    rw [calculateMonth_finalMortality, calculateMonth_pwdRate] at *
    refine mul_nonneg (mul_nonneg hInv1.1 ?_) ?_
    · exact mul_nonneg (mul_nonneg (by linarith [hmq.2]) (by linarith [hlq.2]))
        (by linarith [hwq.2])
    · split_ifs
      · refine div_nonneg ?_ ?_
        · have : (0 : ℝ) ≤ min (st1.policyYear : ℝ) 10 :=
            le_min (Nat.cast_nonneg _) (by norm_num)
          nlinarith
        · have : (0 : ℝ) ≤ min ((st1.policyYear - 1 : ℕ) : ℝ) 10 :=
            le_min (Nat.cast_nonneg _) (by norm_num)
          nlinarith
      · norm_num
  · intro r hr
    rw [calculateMonth_st_locked] at hr
    exact hInv1.2 r hr

/-- The initial projection state satisfies the invariant for a valid
setup. -/
theorem fromPolicy_inv (A : Assumptions) (cfg : ProjectionConfig) (p : Policy)
    (hv : ValidSetup A cfg p) : Inv (ProjectionState.fromPolicy p) := by
  refine ⟨hv.2.2.2.2.2.2, ?_⟩
  intro r hr
  exact absurd hr (by simp [ProjectionState.fromPolicy])

/-- Every row the projection loop emits has nonnegative EOP AV. -/
theorem projectLoop_eop_nonneg (A : Assumptions) (cfg : ProjectionConfig)
    (p : Policy) : ∀ n st, ∀ row ∈ projectLoop A cfg p n st, 0 ≤ row.eopAv := by
  intro n
  induction n with
  | zero => intro st row hrow; simp [projectLoop] at hrow
  | succ n ih =>
      intro st row hrow
      simp only [projectLoop] at hrow
      rcases List.mem_cons.mp hrow with h | h
      · rw [h, calculateMonth_row]
        exact calculateCashflows_eop_nonneg A cfg p _ _
      · split at h
        · simp at h
        · exact ih _ row h

/-- From a state with exhausted EOP AV, every row the loop emits has EOP
AV zero. -/
theorem projectLoop_eop_zero (A : Assumptions) (cfg : ProjectionConfig)
    (p : Policy) (hv : ValidSetup A cfg p) :
    ∀ n st, Inv st → st.eopAv = 0 →
      ∀ row ∈ projectLoop A cfg p n st, row.eopAv = 0 := by
  intro n
  induction n with
  | zero => intro st _ _ row hrow; simp [projectLoop] at hrow
  | succ n ih =>
      intro st hInv hz row hrow
      simp only [projectLoop] at hrow
      have hInv1 : Inv (lockPayout A (st.advanceMonth p)) := by
        constructor
        · rw [lockPayout_bb, advanceMonth_bb]; exact hInv.1
        · intro r hr
          rw [lockPayout_locked] at hr
          by_cases hc : (st.advanceMonth p).incomeActivated
              ∧ (st.advanceMonth p).lockedPayoutRate = none
          · rw [if_pos hc] at hr
            cases hr
            exact payoutFactor_nonneg _ hv.2.2.1 _
          · rw [if_neg hc, advanceMonth_locked] at hr
            exact hInv.2 r hr
      have hav1 : (lockPayout A (st.advanceMonth p)).bopAv = 0 := by
        rw [(lockPayout_fields A _).2.2.2.2.1, advanceMonth_bopAv, hz]
      have hrow0 : (calculateMonth A cfg p (lockPayout A (st.advanceMonth p))).1.eopAv
          = 0 := by
        rw [calculateMonth_row]
        refine calculateCashflows_eop_zero A cfg p _ _ hav1 ?_
        rw [applyDecrements_sysWd, calculateDecrements_sysWd]
        exact systematicWdOf_nonneg A _ hv.2.2.1 hInv1
      rcases List.mem_cons.mp hrow with h | h
      · rw [h, hrow0]
      · split at h
        · simp at h
        · refine ih _ (step_preserves_inv A cfg p st hv hInv) ?_ row h
          rw [calculateMonth_st_eopAv, hrow0]

/-- Once a row of the loop output has EOP AV zero, every later row does. -/
theorem projectLoop_sticky (A : Assumptions) (cfg : ProjectionConfig) (p : Policy)
    (hv : ValidSetup A cfg p) :
    ∀ n st, Inv st → ∀ i j ri rj, i ≤ j →
      (projectLoop A cfg p n st).get? i = some ri →
      (projectLoop A cfg p n st).get? j = some rj →
      ri.eopAv = 0 → rj.eopAv = 0 := by
  intro n
  induction n with
  | zero => intro st _ i j ri rj _ hi _ _; simp [projectLoop] at hi
  | succ n ih =>
      intro st hInv i j ri rj hij hi hj hz
      simp only [projectLoop] at hi hj
      cases i with
      | zero =>
          rw [List.get?_cons_zero, Option.some_inj] at hi
          cases j with
          | zero =>
              rw [List.get?_cons_zero, Option.some_inj] at hj
              rw [← hj, hi]
              exact hz
          | succ l =>
              rw [List.get?_cons_succ] at hj
              split at hj
              · simp at hj
              · refine projectLoop_eop_zero A cfg p hv n _
                  (step_preserves_inv A cfg p st hv hInv) ?_ rj (List.get?_mem hj)
                rw [calculateMonth_st_eopAv, hi]
                exact hz
      | succ k =>
          cases j with
          | zero => exact absurd hij (by omega)
          | succ l =>
              rw [List.get?_cons_succ] at hi hj
              split at hi
              · simp at hi
              · rename_i hlive
                rw [if_neg hlive] at hj
                exact ih _ (step_preserves_inv A cfg p st hv hInv) k l ri rj
                  (by omega) hi hj hz

/-- C4: on any valid projection setup, every month's EOP account value is
nonnegative, and account-value exhaustion is sticky — if the row at index
i of the projection output has EOP AV 0, so does every row at an index
j ≥ i of the same projection. -/
theorem C4_av_floor_sticky (A : Assumptions) (cfg : ProjectionConfig) (p : Policy)
    (hv : ValidSetup A cfg p) :
    (∀ row ∈ projectPolicy A cfg p, 0 ≤ row.eopAv)
    ∧ ∀ i j ri rj, i ≤ j →
        (projectPolicy A cfg p).get? i = some ri →
        (projectPolicy A cfg p).get? j = some rj →
        ri.eopAv = 0 → rj.eopAv = 0 := by
  constructor
  · exact fun row h => projectLoop_eop_nonneg A cfg p _ _ row h
  · intro i j ri rj hij hi hj hz
    exact projectLoop_sticky A cfg p hv cfg.projectionMonths _
      (fromPolicy_inv A cfg p hv) i j ri rj hij hi hj hz

/-- C4 witness: the tiny-mortality default-pricing setup over the test
policy is valid, and the theorem's nonnegativity conclusion holds for it. -/
theorem C4_witness :
    ValidSetup Atiny cfg0 testPolicy
    ∧ ∀ row ∈ projectPolicy Atiny cfg0 testPolicy, 0 ≤ row.eopAv := by
  have hvalid : ValidSetup Atiny cfg0 testPolicy := by
    refine ⟨?_, ⟨?_, ?_, ?_⟩, ?_, ?_, ?_, ?_, ?_⟩
    · refine ⟨?_, ?_, ?_⟩ <;>
        · intro x hx
          simp only [Atiny, tinyMortality, List.mem_cons, List.not_mem_nil,
            or_false] at hx
          subst hx
          norm_num
    · constructor <;> norm_num [Atiny, A0, defaultPricing, defaultPwd]
    · intro pr hpr
      simp only [Atiny, A0, defaultPricing, defaultPwd, defaultRmdTable,
        List.mem_cons, List.not_mem_nil, or_false] at hpr
      rcases hpr with h | h | h | h | h | h | h | h | h | h | h | h | h | h
        | h | h | h | h | h | h | h | h | h | h | h | h | h | h <;>
        · subst h; norm_num
    · intro r hr
      simp only [Atiny, A0, defaultPricing, defaultPwd, defaultFreeUtil,
        List.mem_cons, List.not_mem_nil, or_false] at hr
      rcases hr with h | h | h | h <;> · subst h; norm_num
    · intro b hb
      simp only [Atiny, A0, defaultPricing, defaultGlwb, defaultPayoutFactors,
        List.mem_cons, List.not_mem_nil, or_false] at hb
      rcases hb with h | h | h | h | h | h | h | h <;> · subst h; norm_num
    · norm_num [Atiny, A0, defaultPricing, defaultGlwb]
    · norm_num [Atiny, A0, defaultPricing, defaultGlwb]
    · intro r hr
      simp [cfg0] at hr
    · norm_num [testPolicy, Policy.startingBenefitBase]
  exact ⟨hvalid, (C4_av_floor_sticky Atiny cfg0 testPolicy hvalid).1⟩

/-- Ages past the IAM table end get the out-of-table monthly rate 1/12. -/
theorem iamTable_rate_past (age : ℕ) (g : Gender) (pm : ℕ) (h : 121 ≤ age) :
    iamTable.monthlyRate age g pm = 1 / 12 := by
  rw [MortalityTable.monthlyRate, if_pos]
  rw [iam_baseRates_length]
  exact h

/-- The reserve fixture's mortality is the IAM table, so every age of the
age-150 policy is past the table and gets rate 1/12. -/
theorem A5_monthlyRate (age : ℕ) (g : Gender) (pm : ℕ) (h : 121 ≤ age) :
    A5.mortality.monthlyRate age g pm = 1 / 12 :=
  iamTable_rate_past age g pm h

/-- Attained ages of the reserve-fixture policy in its first months. -/
theorem p5_ages :
    p5.attainedAge 0 = 150 ∧ p5.attainedAge 1 = 150 ∧ p5.attainedAge 2 = 151 := by
  refine ⟨?_, ?_, ?_⟩ <;> norm_num [Policy.attainedAge, Policy.policyYear, p5]

/-- The loaded single-band payout table of the reserve fixture: rate 0 at
age 150 (inside the band), the 0.090 fallback at age 151 (past it). -/
theorem A5_payout :
    A5.product.glwb.payoutFactors.getSingleLife 150 = 0
    ∧ A5.product.glwb.payoutFactors.getSingleLife 151 = 0.090 := by
  constructor <;> rfl

/-- The reserve fixture's empty surrender-charge schedule charges 0 in
every policy year. -/
theorem A5_scRate (py : ℕ) :
    A5.product.base.surrenderCharges.getRate py = 0 := by
  rw [SurrenderChargeSchedule.getRate]
  split_ifs <;> rfl

/-- Cash surrender value of the reserve fixture: the full account value. -/
theorem A5_csv (m : ℕ) (av : ℝ) : cashSurrenderValue A5 p5 m av = av := by
  rw [cashSurrenderValue, A5_scRate]
  ring

/-- The simplified AV/BB state getters on the reserve-fixture policy. -/
theorem p5_avbb (m : ℕ) : getAvAtMonth p5 m = 1 ∧ getBbAtMonth p5 m = 1 / 100 := by
  constructor
  · rw [getAvAtMonth]; split_ifs <;> rfl
  · rw [getBbAtMonth]; split_ifs <;>
      norm_num [Policy.startingBenefitBase, p5, testPolicy]

/-- The zero-valuation-rate discount curve discounts by factor 1. -/
theorem p5_discount :
    (DiscountCurve.singleRate p5.valRate).deathBenefitDiscountFactor = 1
    ∧ (DiscountCurve.singleRate p5.valRate).electiveDiscountFactor = 1 := by
  constructor <;>
    norm_num [DiscountCurve.singleRate, DiscountCurve.deathBenefitDiscountFactor,
      DiscountCurve.electiveDiscountFactor, p5]

/-- GLWB rider charges of the reserve fixture (the defaults). -/
theorem A5_charges :
    A5.product.glwb.preActivationCharge = 0.005
    ∧ A5.product.glwb.postActivationCharge = 0.015 :=
  ⟨rfl, rfl⟩

/-- One simplified reserve-projection step at month 0 from accumulation:
pre-activation rider charge 0.5% of BB, no withdrawal, survival 11/12. -/
theorem p5_step0_acc : projectStateForward A5 p5 0 .accumulation 1 (1 / 100)
    = (19999 / 20000 * (11 / 12), 1 / 100 * (11 / 12)) := by
  simp only [projectStateForward]
  rw [p5_ages.1, A5_monthlyRate 150 p5.gender 0 (by norm_num), A5_charges.1,
    A5_payout.1]
  have hne : RPolicyState.accumulation ≠ RPolicyState.incomeActive := by decide
  simp only [if_neg hne]
  norm_num [Policy.monthInPolicyYear, Policy.policyYear, p5, max_def]

/-- One simplified reserve-projection step at month 0 from income-active:
post-activation rider charge 1.5% of BB, zero payout at age 150. -/
theorem p5_step0_inc : projectStateForward A5 p5 0 .incomeActive 1 (1 / 100)
    = (19997 / 20000 * (11 / 12), 1 / 100 * (11 / 12)) := by
  simp only [projectStateForward]
  rw [p5_ages.1, A5_monthlyRate 150 p5.gender 0 (by norm_num), A5_charges.2,
    A5_payout.1]
  have hne : RPolicyState.incomeActive ≠ RPolicyState.accumulation := by decide
  have hroll : ¬ (RPolicyState.incomeActive = RPolicyState.accumulation
      ∧ p5.monthInPolicyYear 0 = 12 ∧ p5.policyYear 0 ≤ p5.scPeriod) := by
    rintro ⟨h, -, -⟩
    exact hne h
  rw [if_neg hroll]
  simp only [eq_self_iff_true, if_true]
  norm_num [max_def]

/-- One simplified reserve-projection step at month 1: no rider charge, no
withdrawal (zero payout at age 150), no rollup — both balances survive. -/
theorem p5_step1 (state : RPolicyState) (av bb : ℝ) (hav : 0 ≤ av) :
    projectStateForward A5 p5 1 state av bb = (av * (11 / 12), bb * (11 / 12)) := by
  simp only [projectStateForward]
  rw [p5_ages.2.1, A5_monthlyRate 150 p5.gender 1 (by norm_num), A5_payout.1]
  have h12 : ¬ ((1 : ℕ) % 12 = 0) := by norm_num
  rw [if_neg h12]
  have hsc : p5.scPeriod = 0 := rfl
  have hpy : p5.policyYear 1 = 1 := by norm_num [Policy.policyYear, p5]
  rw [hsc, hpy]
  have hwd : (if state = RPolicyState.incomeActive then bb * 0 / 12 else 0) = 0 := by
    split_ifs <;> ring
  rw [hwd]
  have hmax : max (av - 0 - 0) 0 = av := by
    rw [sub_zero, sub_zero]
    exact max_eq_left hav
  rw [hmax]
  have hroll : ¬ (state = RPolicyState.accumulation
      ∧ p5.monthInPolicyYear 1 = 12 ∧ (1 : ℕ) ≤ 0) := by
    rintro ⟨-, -, h⟩
    omega
  rw [if_neg hroll]
  norm_num

/-- A zero monthly income makes the income-PV loop vanish. -/
theorem incomePvLoop_zero (A : Assumptions) (p : Policy) (vE : ℝ)
    (valM actM : ℕ) : ∀ fuel t surv,
    incomePvLoop A p vE 0 valM actM fuel t surv = 0 := by
  intro fuel
  induction fuel with
  | zero => intro t surv; rfl
  | succ n ih =>
      intro t surv
      simp only [incomePvLoop, mul_zero, zero_mul]
      split_ifs <;> simp [ih]

/-- Death-benefit PV of the reserve fixture when income starts at month 0:
three months of 1/12 mortality on the post-charge account path. -/
theorem p5_deathPv_am0 :
    deathPvLoop A5 p5 1 0 (some 0) 3 0 1 1 (1 / 100) = 1055923805 / 4976640000 := by
  norm_num [deathPvLoop, p5_ages.1, p5_ages.2.1, p5_ages.2.2,
    A5_monthlyRate 150 p5.gender 0 (by norm_num),
    A5_monthlyRate 150 p5.gender 1 (by norm_num),
    A5_monthlyRate 151 p5.gender 2 (by norm_num),
    p5_step0_inc, p5_step1, deathBenefitAmount]

/-- Death-benefit PV of the reserve fixture when income starts at month 1. -/
theorem p5_deathPv_am1 :
    deathPvLoop A5 p5 1 0 (some 1) 3 0 1 1 (1 / 100) = 1055987935 / 4976640000 := by
  norm_num [deathPvLoop, p5_ages.1, p5_ages.2.1, p5_ages.2.2,
    A5_monthlyRate 150 p5.gender 0 (by norm_num),
    A5_monthlyRate 150 p5.gender 1 (by norm_num),
    A5_monthlyRate 151 p5.gender 2 (by norm_num),
    p5_step0_acc, p5_step1, deathBenefitAmount]

/-- Death-benefit PV of the reserve fixture when income starts at month 2. -/
theorem p5_deathPv_am2 :
    deathPvLoop A5 p5 1 0 (some 2) 3 0 1 1 (1 / 100) = 1055987935 / 4976640000 := by
  norm_num [deathPvLoop, p5_ages.1, p5_ages.2.1, p5_ages.2.2,
    A5_monthlyRate 150 p5.gender 0 (by norm_num),
    A5_monthlyRate 150 p5.gender 1 (by norm_num),
    A5_monthlyRate 151 p5.gender 2 (by norm_num),
    p5_step0_acc, p5_step1, deathBenefitAmount]

/-- Death-benefit PV of the reserve fixture when income starts at month 3. -/
theorem p5_deathPv_am3 :
    deathPvLoop A5 p5 1 0 (some 3) 3 0 1 1 (1 / 100) = 1055987935 / 4976640000 := by
  norm_num [deathPvLoop, p5_ages.1, p5_ages.2.1, p5_ages.2.2,
    A5_monthlyRate 150 p5.gender 0 (by norm_num),
    A5_monthlyRate 150 p5.gender 1 (by norm_num),
    A5_monthlyRate 151 p5.gender 2 (by norm_num),
    p5_step0_acc, p5_step1, deathBenefitAmount]

/-- Death-benefit PV of the reserve fixture on the never-activate path. -/
theorem p5_deathPv_never :
    deathPvLoop A5 p5 1 0 none 3 0 1 1 (1 / 100) = 1055987935 / 4976640000 := by
  norm_num [deathPvLoop, p5_ages.1, p5_ages.2.1, p5_ages.2.2,
    A5_monthlyRate 150 p5.gender 0 (by norm_num),
    A5_monthlyRate 150 p5.gender 1 (by norm_num),
    A5_monthlyRate 151 p5.gender 2 (by norm_num),
    p5_step0_acc, p5_step1, deathBenefitAmount]

/-- Income-PV loop of the reserve fixture for activation at month 2: only
the month-2 payment lands, weighted by two months of survival. -/
theorem p5_incomeLoop_am2 (mi : ℝ) :
    incomePvLoop A5 p5 1 mi 0 2 3 0 1 = 121 / 144 * mi := by
  norm_num [incomePvLoop, p5_ages.1, p5_ages.2.1, p5_ages.2.2,
    A5_monthlyRate 150 p5.gender 0 (by norm_num),
    A5_monthlyRate 150 p5.gender 1 (by norm_num),
    A5_monthlyRate 151 p5.gender 2 (by norm_num)]

/-- Income-PV loop of the reserve fixture for activation at month 3: no
payment lands within the three-month horizon. -/
theorem p5_incomeLoop_am3 (mi : ℝ) :
    incomePvLoop A5 p5 1 mi 0 3 3 0 1 = 0 := by
  norm_num [incomePvLoop, p5_ages.1, p5_ages.2.1, p5_ages.2.2,
    A5_monthlyRate 150 p5.gender 0 (by norm_num),
    A5_monthlyRate 150 p5.gender 1 (by norm_num),
    A5_monthlyRate 151 p5.gender 2 (by norm_num)]

/-- Death-benefit PVs of the reserve fixture at valuation month 0, by
activation month. -/
theorem p5_DBpv :
    deathBenefitPv A5 (DiscountCurve.singleRate p5.valRate) 3 p5 0 (some 0) 1 (1 / 100)
        = 1055923805 / 4976640000
    ∧ deathBenefitPv A5 (DiscountCurve.singleRate p5.valRate) 3 p5 0 (some 1) 1 (1 / 100)
        = 1055987935 / 4976640000
    ∧ deathBenefitPv A5 (DiscountCurve.singleRate p5.valRate) 3 p5 0 (some 2) 1 (1 / 100)
        = 1055987935 / 4976640000
    ∧ deathBenefitPv A5 (DiscountCurve.singleRate p5.valRate) 3 p5 0 (some 3) 1 (1 / 100)
        = 1055987935 / 4976640000
    ∧ deathBenefitPv A5 (DiscountCurve.singleRate p5.valRate) 3 p5 0 none 1 (1 / 100)
        = 1055987935 / 4976640000 := by
  refine ⟨?_, ?_, ?_, ?_, ?_⟩ <;>
    · rw [deathBenefitPv, p5_discount.1]
      norm_num [p5_deathPv_am0, p5_deathPv_am1, p5_deathPv_am2, p5_deathPv_am3,
        p5_deathPv_never]

/-- Income-benefit PVs of the reserve fixture at valuation month 0, by
activation month: zero payout at age 150 (months 0-1), the 0.090 fallback
at age 151 from month 2, only the month-2 payment inside the horizon. -/
theorem p5_Ipv :
    incomeBenefitPv A5 (DiscountCurve.singleRate p5.valRate) 3 p5 0 0 (1 / 100) = 0
    ∧ incomeBenefitPv A5 (DiscountCurve.singleRate p5.valRate) 3 p5 0 1 (1 / 100) = 0
    ∧ incomeBenefitPv A5 (DiscountCurve.singleRate p5.valRate) 3 p5 0 2 (1 / 100)
        = 121 / 1920000
    ∧ incomeBenefitPv A5 (DiscountCurve.singleRate p5.valRate) 3 p5 0 3 (1 / 100) = 0 := by
  refine ⟨?_, ?_, ?_, ?_⟩ <;>
    · simp only [incomeBenefitPv]
      rw [p5_discount.2]
      norm_num [p5_ages.1, p5_ages.2.1, p5_ages.2.2, A5_payout.1, A5_payout.2,
        incomePvLoop_zero A5 p5 1 0 0, incomePvLoop_zero A5 p5 1 0 1,
        p5_incomeLoop_am2, p5_incomeLoop_am3]

/-- The brute-force CARVM solve of the reserve fixture at month 0: the
best activation month is 2, with the raw reserve below CSV. -/
theorem p5_brute :
    bruteForceSolve A5 carvmCfg5 p5 0 1 (1 / 100)
      = (2, 1056301567 / 4976640000,
         { deathBenefitPv := 1055987935 / 4976640000,
           incomeBenefitPv := 121 / 1920000,
           surrenderValuePv := 0,
           electiveBenefitPv := 121 / 1920000,
           freePwdPv := 0 }) := by
  simp only [bruteForceSolve, carvmCfg5]
  norm_num [min_def, List.range', p5_DBpv.1, p5_DBpv.2.1, p5_DBpv.2.2.1,
    p5_DBpv.2.2.2.1, p5_DBpv.2.2.2.2, p5_Ipv.1, p5_Ipv.2.1, p5_Ipv.2.2.1,
    p5_Ipv.2.2.2, u32MAX]

/-- The month-0 full solve of the reserve fixture: CSV 1 binds (the raw
optimum is ≈ 0.2123), so the result reports the never sentinel — while
the cache stores the raw activation month 2. -/
theorem p5_fullSolve (C : ReserveCache) :
    fullSolveAndCache A5 carvmCfg5 C p5 0 1 (1 / 100)
      = ({ policyId := 1, valuationDate := 0, grossReserve := 1, netReserve := 1,
           optimalActivationMonth := u32MAX,
           reserveComponents :=
             { deathBenefitPv := 1055987935 / 4976640000,
               incomeBenefitPv := 121 / 1920000,
               surrenderValuePv := 1,
               electiveBenefitPv := 121 / 1920000,
               freePwdPv := 0 },
           method := .carvm, fromCache := false, csvAtValuation := 1 },
         C.insert path5) := by
  have hm : carvmCfg5.method = CARVMMethod.bruteForce := rfl
  have hc : carvmCfg5.useCaching = true := rfl
  have hid : p5.policyId = 1 := rfl
  simp only [fullSolveAndCache, hm, hc, if_true]
  rw [p5_brute, A5_csv]
  norm_num [max_def, u32MAX, p5_ages.2.2, A5_payout.2, A5_scRate, path5,
    CachedReservePath.nw, hid]

/-- The first reserve call (month 0, empty cache) of the reserve fixture:
a full solve that reports the sentinel (CSV binds) but caches activation
month 2. -/
theorem p5_call1 :
    calculateReserve A5 carvmCfg5 ({} : ReserveCache) p5 0
      = ({ policyId := 1, valuationDate := 0, grossReserve := 1, netReserve := 1,
           optimalActivationMonth := u32MAX,
           reserveComponents :=
             { deathBenefitPv := 1055987935 / 4976640000,
               incomeBenefitPv := 121 / 1920000,
               surrenderValuePv := 1,
               electiveBenefitPv := 121 / 1920000,
               freePwdPv := 0 },
           method := .carvm, fromCache := false, csvAtValuation := 1 },
         K5) := by
  have hc : carvmCfg5.useCaching = true := rfl
  have hget : ReserveCache.get ({} : ReserveCache) p5.policyId = none := rfl
  rw [calculateReserve]
  simp only [calculateWithCache, hc, if_true, hget]
  rw [(p5_avbb 0).1, (p5_avbb 0).2]
  rw [p5_fullSolve]
  norm_num [K5, ReserveCache.insert, path5, CachedReservePath.nw, List.filter]

/-- At month 1 none of the revalidation criteria fire on the cached path
of the reserve fixture (proximity checking is disabled). -/
theorem p5_noReval :
    ¬ carvmCfg5.revalidationCriteria.needsRevalidation path5 1 1 (1 / 100) := by
  rw [RevalidationCriteria.needsRevalidation]
  rintro (h | h | h | h)
  · exact absurd h (by norm_num [carvmCfg5, defaultRevalidationCriteria, path5,
      CachedReservePath.nw])
  · refine absurd h ?_
    norm_num [carvmCfg5, defaultRevalidationCriteria, path5, CachedReservePath.nw,
      max_def]
  · exact absurd h (by norm_num [CachedReservePath.approachingActivation, path5,
      CachedReservePath.nw, carvmCfg5, defaultRevalidationCriteria])
  · refine absurd h ?_
    norm_num [carvmCfg5, defaultRevalidationCriteria, path5, CachedReservePath.nw,
      max_def]

/-- The month-1 roll-forward of the cached reserve path: one month of
division by survival at zero interest. -/
theorem p5_roll :
    tryRollForward A5 carvmCfg5 p5 1 path5
      = .success (1056301567 / 4561920000) true := by
  have hstar : path5.optimalActivationMonth = 2 := rfl
  have hval : p5.valRate = 0 := rfl
  simp only [tryRollForward, hstar]
  rw [if_pos (by norm_num)]
  rw [(p5_avbb 1).1, (p5_avbb 1).2]
  have hrolled : rollAccumulationReserve A5 p5 path5.reserveAtSolve path5.solveMonth 1
      = 1056301567 / 4561920000 := by
    have hr : path5.reserveAtSolve = 1056301567 / 4976640000 := rfl
    have hs : path5.solveMonth = 0 := rfl
    rw [hr, hs, rollAccumulationReserve, hval]
    norm_num [rollAccLoop, p5_ages.1, A5_monthlyRate 150 p5.gender 0 (by norm_num)]
  rw [hrolled]
  have hitm : path5.itmAtSolve = 1 / 100 := by
    norm_num [path5, CachedReservePath.nw]
  rw [hitm]
  norm_num [max_def]

/-- The second reserve call (month 1, warm cache) of the reserve fixture:
a cache hit whose result is floored at the binding CSV of 1, yet reports
the cached finite activation month 2 instead of the never sentinel. -/
theorem p5_call2 :
    (calculateReserve A5 carvmCfg5 K5 p5 1).1.grossReserve = 1
    ∧ (calculateReserve A5 carvmCfg5 K5 p5 1).1.csvAtValuation = 1
    ∧ (calculateReserve A5 carvmCfg5 K5 p5 1).1.optimalActivationMonth = 2
    ∧ (calculateReserve A5 carvmCfg5 K5 p5 1).1.fromCache = true := by
  have hc : carvmCfg5.useCaching = true := rfl
  have hget : ReserveCache.get K5 p5.policyId = some path5 := rfl
  rw [calculateReserve]
  simp only [calculateWithCache, hc, if_true, hget]
  rw [(p5_avbb 1).1, (p5_avbb 1).2]
  rw [if_neg p5_noReval]
  simp only [p5_roll]
  rw [A5_csv]
  refine ⟨?_, ?_, ?_, ?_⟩
  · show max (1056301567 / 4561920000 : ℝ) 1 = 1
    norm_num [max_def]
  · rfl
  · show path5.optimalActivationMonth = 2
    rfl
  · trivial

/-- The full-solve result: CSV is reported and floors the gross reserve,
the result is not from cache, and when CSV binds the sentinel activation
month is reported with `surrender_value_pv = CSV`. -/
theorem fullSolve_props (A : Assumptions) (cfg : CARVMConfig) (C : ReserveCache)
    (p : Policy) (vM : ℕ) (av bb : ℝ) :
    (fullSolveAndCache A cfg C p vM av bb).1.csvAtValuation
        = cashSurrenderValue A p vM av
    ∧ (fullSolveAndCache A cfg C p vM av bb).1.csvAtValuation
        ≤ (fullSolveAndCache A cfg C p vM av bb).1.grossReserve
    ∧ (fullSolveAndCache A cfg C p vM av bb).1.fromCache = false
    ∧ (|(fullSolveAndCache A cfg C p vM av bb).1.grossReserve
          - (fullSolveAndCache A cfg C p vM av bb).1.csvAtValuation| < 0.01 →
        (fullSolveAndCache A cfg C p vM av bb).1.optimalActivationMonth = u32MAX
        ∧ (fullSolveAndCache A cfg C p vM av bb).1.reserveComponents.surrenderValuePv
            = (fullSolveAndCache A cfg C p vM av bb).1.csvAtValuation) := by
  simp only [fullSolveAndCache]
  refine ⟨trivial, le_max_right _ _, trivial, ?_⟩
  intro hb
  refine ⟨?_, ?_⟩ <;> rw [if_pos hb]

/-- C5 (corrected): for every assumption set, CARVM configuration, cache
state, policy and valuation month, `calculate_reserve` reports
`csv_at_valuation = AV × (1 − sc_rate)` and returns
`gross_reserve ≥ csv_at_valuation` on every path (full solve and cached
roll-forward); on the full-solve path a binding CSV is reported with the
never sentinel `u32::MAX` and `surrender_value_pv = CSV`; on the cached
path a binding CSV still yields `surrender_value_pv = CSV` (but not the
sentinel — see the counterexample). -/
theorem C5_reserve_csv_floor (A : Assumptions) (cfg : CARVMConfig)
    (cache : ReserveCache) (p : Policy) (valMonth : ℕ) :
    (calculateReserve A cfg cache p valMonth).1.csvAtValuation
        = cashSurrenderValue A p valMonth (getAvAtMonth p valMonth)
    ∧ (calculateReserve A cfg cache p valMonth).1.csvAtValuation
        ≤ (calculateReserve A cfg cache p valMonth).1.grossReserve
    ∧ ((calculateReserve A cfg cache p valMonth).1.fromCache = false →
        |(calculateReserve A cfg cache p valMonth).1.grossReserve
            - (calculateReserve A cfg cache p valMonth).1.csvAtValuation| < 0.01 →
        (calculateReserve A cfg cache p valMonth).1.optimalActivationMonth = u32MAX
        ∧ (calculateReserve A cfg cache p valMonth).1.reserveComponents.surrenderValuePv
            = (calculateReserve A cfg cache p valMonth).1.csvAtValuation)
    ∧ ((calculateReserve A cfg cache p valMonth).1.fromCache = true →
        |(calculateReserve A cfg cache p valMonth).1.grossReserve
            - (calculateReserve A cfg cache p valMonth).1.csvAtValuation| < 0.01 →
        (calculateReserve A cfg cache p valMonth).1.reserveComponents.surrenderValuePv
            = (calculateReserve A cfg cache p valMonth).1.csvAtValuation) := by
  rw [calculateReserve]
  by_cases hu : cfg.useCaching
  · simp only [calculateWithCache, hu, if_true]
    cases hg : ReserveCache.get cache p.policyId with
    | none =>
        simp only [hg]
        have h := fullSolve_props A cfg
          { cache with cacheMisses := cache.cacheMisses + 1 } p valMonth
          (getAvAtMonth p valMonth) (getBbAtMonth p valMonth)
        exact ⟨h.1, h.2.1, fun _ hb => h.2.2.2 hb, fun ht _ => absurd (h.2.2.1 ▸ ht)
          (by simp)⟩
    | some cached =>
        simp only [hg]
        by_cases hr : cfg.revalidationCriteria.needsRevalidation cached valMonth
            (getAvAtMonth p valMonth) (getBbAtMonth p valMonth)
        · rw [if_pos hr]
          have h := fullSolve_props A cfg
            { cache with revalidations := cache.revalidations + 1 } p valMonth
            (getAvAtMonth p valMonth) (getBbAtMonth p valMonth)
          exact ⟨h.1, h.2.1, fun _ hb => h.2.2.2 hb, fun ht _ => absurd (h.2.2.1 ▸ ht)
            (by simp)⟩
        · rw [if_neg hr]
          cases ht : tryRollForward A cfg p valMonth cached with
          | success reserve stillValid =>
              simp only [ht]
              refine ⟨trivial, le_max_right _ _, ?_, ?_⟩
              · intro hf
                exact absurd hf (by simp)
              · intro _ hb
                rw [if_pos hb]
          | needsResolve =>
              simp only [ht]
              have h := fullSolve_props A cfg
                { cache with cacheMisses := cache.cacheMisses + 1 } p valMonth
                (getAvAtMonth p valMonth) (getBbAtMonth p valMonth)
              exact ⟨h.1, h.2.1, fun _ hb => h.2.2.2 hb, fun hc _ => absurd (h.2.2.1 ▸ hc)
                (by simp)⟩
  · have hu' : cfg.useCaching = false := by
      cases h : cfg.useCaching
      · rfl
      · exact absurd h hu
    simp only [calculateWithCache, hu', Bool.false_eq_true, if_false]
    have h := fullSolve_props A cfg cache p valMonth
      (getAvAtMonth p valMonth) (getBbAtMonth p valMonth)
    exact ⟨h.1, h.2.1, fun _ hb => h.2.2.2 hb, fun ht _ => absurd (h.2.2.1 ▸ ht)
      (by simp)⟩

/-- C5 witness: the reserve fixture's first call is a full solve with a
binding CSV; the theorem yields the floor and the sentinel for it. -/
theorem C5_witness :
    (calculateReserve A5 carvmCfg5 ({} : ReserveCache) p5 0).1.csvAtValuation
        ≤ (calculateReserve A5 carvmCfg5 ({} : ReserveCache) p5 0).1.grossReserve
    ∧ (calculateReserve A5 carvmCfg5 ({} : ReserveCache) p5 0).1.optimalActivationMonth
        = u32MAX := by
  have h := C5_reserve_csv_floor A5 carvmCfg5 {} p5 0
  refine ⟨h.2.1, ?_⟩
  have hf : (calculateReserve A5 carvmCfg5 ({} : ReserveCache) p5 0).1.fromCache
      = false := by
    rw [p5_call1]
  have hb : |(calculateReserve A5 carvmCfg5 ({} : ReserveCache) p5 0).1.grossReserve
      - (calculateReserve A5 carvmCfg5 ({} : ReserveCache) p5 0).1.csvAtValuation|
      < 0.01 := by
    rw [p5_call1]
    norm_num
  exact (h.2.2.1 hf hb).1

/-- C5 counterexample: calling `calculate_reserve` on the reserve fixture
at month 0 and then at month 1, the second result comes from the cache
with a binding CSV (gross reserve = CSV = 1) — yet it reports activation
month 2, not the never sentinel, refuting the claim's sentinel clause on
the cached roll-forward path. -/
theorem C5_counterexample :
    |(calculateReserve A5 carvmCfg5
        (calculateReserve A5 carvmCfg5 ({} : ReserveCache) p5 0).2 p5 1).1.grossReserve
      - (calculateReserve A5 carvmCfg5
          (calculateReserve A5 carvmCfg5 ({} : ReserveCache) p5 0).2 p5 1).1.csvAtValuation|
      < 0.01
    ∧ (calculateReserve A5 carvmCfg5
        (calculateReserve A5 carvmCfg5 ({} : ReserveCache) p5 0).2 p5 1).1.fromCache = true
    ∧ (calculateReserve A5 carvmCfg5
        (calculateReserve A5 carvmCfg5 ({} : ReserveCache) p5 0).2 p5 1).1.optimalActivationMonth
      ≠ u32MAX := by
  have hK : (calculateReserve A5 carvmCfg5 ({} : ReserveCache) p5 0).2 = K5 := by
    rw [p5_call1]
  rw [hK]
  refine ⟨?_, p5_call2.2.2.2, ?_⟩
  · rw [p5_call2.1, p5_call2.2.1]
    norm_num
  · rw [p5_call2.2.2.1]
    norm_num [u32MAX]

end ActSys
